import Mathlib

/-
Verification development for the PiP content-relocation core
(`src/inpage/pip-main.js`).  The JavaScript source is shallowly embedded:
DOM trees become association lists from parent node-ids to ordered child
lists, the controller's mutable `state` object becomes an explicit record
threaded through the functions, JS numbers become an inductive with NaN
and infinities over `ℚ`, and fallible steps return `Except`.
-/

namespace PiP

/-! ## JS numbers and window-size clamping

`clampPipWindowSize` (pip-main.js:1336-1351) receives arbitrary JS
numbers, so the embedding models NaN and the infinities explicitly.
`Math.round` in JS is `⌊x + 1/2⌋` on the (positive) range reached here. -/

inductive JSNum where
  | nan : JSNum
  | posInf : JSNum
  | negInf : JSNum
  | fin : ℚ → JSNum
deriving DecidableEq

/-- Embeds `Number.isFinite`. -/
def JSNum.isFiniteNum : JSNum → Bool
  | .fin _ => true
  | _ => false

/-- Embeds the `width > 0` comparison (false for NaN, true for `+∞`). -/
def JSNum.isPosNum : JSNum → Bool
  | .fin q => decide (0 < q)
  | .posInf => true
  | _ => false

/-- Embeds `Math.round` for the values reached in this file. -/
def jsRound (q : ℚ) : ℤ := ⌊q + 1/2⌋

/-- Embeds the `safeWidth` / `safeHeight` selection of `clampPipWindowSize`:
`Number.isFinite(v) && v > 0 ? v : default`. -/
def safeDim (v : JSNum) (dflt : ℚ) : ℚ :=
  match v with
  | .fin q => if 0 < q then q else dflt
  | _ => dflt

/-- Embeds `clampPipWindowSize(width, height)` (pip-main.js:1336-1351).
`swOpt`/`shOpt` model `window.screen?.availWidth` / `availHeight`
(absent screen object gives the `?? 1920` / `?? 1080` defaults). -/
def clampPipWindowSize (swOpt shOpt : Option ℕ) (w h : JSNum) : ℤ × ℤ :=
  let screenWidth : ℚ := (swOpt.getD 1920 : ℕ)
  let screenHeight : ℚ := (shOpt.getD 1080 : ℕ)
  let maxW : ℚ := max 80 (min screenWidth 1920)
  let maxH : ℚ := max 60 (min screenHeight 1200)
  let safeWidth : ℚ := safeDim w 640
  let safeHeight : ℚ := safeDim h 360
  (jsRound (min (max safeWidth 80) maxW), jsRound (min (max safeHeight 60) maxH))

/-- Embeds `getDefaultPipWindowSize` (pip-main.js:1353-1357); `innerW` and
`innerH` model `window.innerWidth` / `innerHeight` (`0` is falsy in JS). -/
def getDefaultPipWindowSize (swOpt shOpt : Option ℕ) (innerW innerH : ℚ) : ℤ × ℤ :=
  let baseWidth : ℚ := if innerW = 0 then 640 else innerW * (6/10)
  let baseHeight : ℚ := if innerH = 0 then 360 else innerH * (6/10)
  clampPipWindowSize swOpt shOpt (.fin baseWidth) (.fin baseHeight)

/-- Embeds the decision core of `resizePipWindowToElement`
(pip-main.js:1359-1380): given the memoized `lastKnownSize`, the screen
bounds and the element's bounding rect, returns `some (w, h)` when
`pipWindow.resizeTo(w, h)` is issued and `none` when the function returns
without resizing (degenerate rect, or within one unit of the last size). -/
def resizePipWindowToElement (last : Option (ℤ × ℤ)) (swOpt shOpt : Option ℕ)
    (rectW rectH : ℚ) : Option (ℤ × ℤ) :=
  if rectW = 0 ∨ rectH = 0 then none
  else
    let c := clampPipWindowSize swOpt shOpt (.fin rectW) (.fin rectH)
    match last with
    | some (lw, lh) =>
        if (lw - c.1).natAbs ≤ 1 ∧ (lh - c.2).natAbs ≤ 1 then none else some c
    | none => some c

/-! ## DOM model

A document forest: ordered child lists keyed by parent node id.  Node `0`
is `document.documentElement`, node `1` is `document.body`; ids `98` and
`99` stand for the transfer `DocumentFragment` and the PiP window's
`<body>` (neither is reachable from node `0`).  A node is *connected*
when walking its parent chain reaches node `0`. -/

abbrev NodeId := ℕ

/-- The id of `document.documentElement`. -/
def docRootId : NodeId := 0

/-- The id of `document.body`. -/
def bodyId : NodeId := 1

/-- The id of the transfer `DocumentFragment` created by `openPip`. -/
def fragId : NodeId := 98

/-- The id of the PiP window's `<body>`. -/
def pipBodyId : NodeId := 99

/-- Ordered child lists keyed by parent node id. -/
structure Dom where
  entries : List (NodeId × List NodeId)
deriving DecidableEq

/-- Lookup of a parent's ordered child list (first entry wins). -/
def domGetL : List (NodeId × List NodeId) → NodeId → List NodeId
  | [], _ => []
  | e :: es, p => if e.1 = p then e.2 else domGetL es p

/-- The ordered child list of `p` (empty when `p` has no entry). -/
def domGet (d : Dom) (p : NodeId) : List NodeId := domGetL d.entries p

/-- Replaces the child list of `p`.  Every node that ever receives
children in the scenarios below has an entry, so the missing-key case
never arises. -/
def domSetChildren (d : Dom) (p : NodeId) (cs : List NodeId) : Dom :=
  ⟨d.entries.map (fun e => if e.1 = p then (e.1, cs) else e)⟩

/-- Removes `n` from every child list: the effect of taking `n` out of its
(unique) parent. -/
def domErase (d : Dom) (n : NodeId) : Dom :=
  ⟨d.entries.map (fun e => (e.1, e.2.filter (fun c => c != n)))⟩

/-- Whether `p` has an entry. -/
def hasKey (d : Dom) (p : NodeId) : Bool := d.entries.any (fun e => e.1 == p)

/-- First entry whose child list holds `n`. -/
def parentOfL : List (NodeId × List NodeId) → NodeId → Option NodeId
  | [], _ => none
  | e :: es, n => if n ∈ e.2 then some e.1 else parentOfL es n

/-- Embeds `node.parentNode`. -/
def parentOf (d : Dom) (n : NodeId) : Option NodeId := parentOfL d.entries n

/-- Embeds `parent.appendChild(node)`: the node is first taken out of its
current position, then appended at the end of `p`'s children. -/
def domAppend (d : Dom) (p : NodeId) (node : NodeId) : Dom :=
  let d1 := domErase d node
  domSetChildren d1 p (domGet d1 p ++ [node])

/-- Embeds `node.remove()`. -/
def domRemove (d : Dom) (n : NodeId) : Dom := domErase d n

/-- Inserts `node` immediately before the first occurrence of `ref`. -/
def insertBeforeList (l : List NodeId) (node ref : NodeId) : List NodeId :=
  match l with
  | [] => [node]
  | x :: xs => if x = ref then node :: x :: xs else x :: insertBeforeList xs node ref

/-- Embeds `parent.insertBefore(node, ref)` with browser semantics: a
non-null `ref` that is not a child of `p` raises `NotFoundError`; a null
`ref` appends. -/
def domInsertBefore (d : Dom) (p : NodeId) (node : NodeId) (ref : Option NodeId) :
    Except String Dom :=
  match ref with
  | none => .ok (domAppend d p node)
  | some r =>
      if r ∈ domGet d p then
        let d1 := domErase d node
        .ok (domSetChildren d1 p (insertBeforeList (domGet d1 p) node r))
      else .error "NotFoundError"

/-- Parent-chain walk with fuel (the forest may in principle be cyclic,
so the walk is bounded by the entry count). -/
def connectedFuel : ℕ → Dom → NodeId → Bool
  | 0, _, _ => false
  | fuel + 1, d, n =>
    if n = docRootId then true
    else
      match parentOf d n with
      | some p => connectedFuel fuel d p
      | none => false

/-- Embeds `node.isConnected` for the host document. -/
def isConnected (d : Dom) (n : NodeId) : Bool :=
  connectedFuel (d.entries.length + 1) d n

/-- Parent-chain walk towards an ancestor with fuel. -/
def inSubtreeFuel : ℕ → Dom → NodeId → NodeId → Bool
  | 0, _, _, _ => false
  | fuel + 1, d, a, n =>
    if n = a then true
    else
      match parentOf d n with
      | some p => inSubtreeFuel fuel d a p
      | none => false

/-- Embeds `ancestor.contains(node)`. -/
def containsNode (d : Dom) (a n : NodeId) : Bool :=
  inSubtreeFuel (d.entries.length + 1) d a n

/-- Next sibling within one child list. -/
def nextInList (l : List NodeId) (e : NodeId) : Option NodeId :=
  match l with
  | [] => none
  | x :: xs => if x = e then xs.head? else nextInList xs e

/-- Embeds `node.nextSibling`. -/
def nextSiblingOf (d : Dom) (e : NodeId) : Option NodeId :=
  match parentOf d e with
  | none => none
  | some p => nextInList (domGet d p) e

/-! ### Dom lemmas -/

theorem domGetL_set_ne (es : List (NodeId × List NodeId)) (p q : NodeId)
    (cs : List NodeId) (h : q ≠ p) :
    domGetL (es.map (fun e => if e.1 = p then (e.1, cs) else e)) q = domGetL es q := by
  induction es with
  | nil => rfl
  | cons e es ih =>
    by_cases he : e.1 = p
    · have hq : e.1 ≠ q := by rw [he]; exact fun hq => h hq.symm
      simp only [List.map_cons, if_pos he, domGetL, if_neg hq, ih]
    · simp only [List.map_cons, if_neg he, domGetL, ih]

theorem domGetL_set_self (es : List (NodeId × List NodeId)) (p : NodeId)
    (cs : List NodeId) (hp : es.any (fun e => e.1 == p) = true) :
    domGetL (es.map (fun e => if e.1 = p then (e.1, cs) else e)) p = cs := by
  induction es with
  | nil => simp at hp
  | cons e es ih =>
    by_cases he : e.1 = p
    · simp only [List.map_cons, if_pos he, domGetL, if_pos he]
    · have hp' : es.any (fun e => e.1 == p) = true := by
        simp only [List.any_cons, Bool.or_eq_true, beq_iff_eq] at hp
        rcases hp with h1 | h2
        · exact absurd h1 he
        · exact h2
      simp only [List.map_cons, if_neg he, domGetL, if_neg he, ih hp']

theorem domGet_domSetChildren_ne (d : Dom) (p q : NodeId) (cs : List NodeId)
    (h : q ≠ p) : domGet (domSetChildren d p cs) q = domGet d q :=
  domGetL_set_ne d.entries p q cs h

theorem domGet_domSetChildren_self (d : Dom) (p : NodeId) (cs : List NodeId)
    (hp : hasKey d p = true) : domGet (domSetChildren d p cs) p = cs :=
  domGetL_set_self d.entries p cs hp

theorem domGet_domErase (d : Dom) (n : NodeId) (p : NodeId) :
    domGet (domErase d n) p = (domGet d p).filter (fun c => c != n) := by
  rcases d with ⟨es⟩
  induction es with
  | nil => rfl
  | cons e es ih =>
    by_cases he : e.1 = p
    · simp [domGet, domErase, domGetL, he]
    · simpa [domGet, domErase, domGetL, he] using ih

theorem filter_ne_eq_self {l : List NodeId} {n : NodeId} (h : n ∉ l) :
    l.filter (fun c => c != n) = l := by
  apply List.filter_eq_self.mpr
  intro a ha
  simp only [bne_iff_ne, ne_eq, decide_eq_true_eq]
  exact fun hniff => h (hniff ▸ ha)

theorem bne_of_ne {a b : ℕ} (h : a ≠ b) : (a != b) = true := by
  rw [bne_iff_ne]; exact h

theorem insertBeforeList_append_not_mem (l1 : List NodeId) (node r : NodeId)
    (l2 : List NodeId) (h : r ∉ l1) :
    insertBeforeList (l1 ++ r :: l2) node r = l1 ++ node :: r :: l2 := by
  induction l1 with
  | nil => simp [insertBeforeList]
  | cons x xs ih =>
    have hx : x ≠ r := fun hxr => h (by rw [hxr]; exact List.mem_cons_self r xs)
    simp only [List.cons_append, insertBeforeList, if_neg hx, List.append_eq]
    rw [ih (fun hr => h (List.mem_cons_of_mem _ hr))]

theorem nextInList_append (l1 : List NodeId) (ph e : NodeId) (l2 : List NodeId)
    (he1 : e ∉ l1) (hep : e ≠ ph) :
    nextInList (l1 ++ ph :: e :: l2) e = l2.head? := by
  induction l1 with
  | nil => simp [nextInList, Ne.symm hep]
  | cons x xs ih =>
    have hx : x ≠ e := fun hxe => he1 (by rw [hxe]; exact List.mem_cons_self e xs)
    simp only [List.cons_append, nextInList, if_neg hx, List.append_eq]
    exact ih (fun hr => he1 (List.mem_cons_of_mem _ hr))

theorem hasKey_domSetChildren (d : Dom) (p q : NodeId) (cs : List NodeId) :
    hasKey (domSetChildren d p cs) q = hasKey d q := by
  rcases d with ⟨es⟩
  induction es with
  | nil => rfl
  | cons e es ih =>
    by_cases he : e.1 = p
    · simp only [hasKey, domSetChildren, List.map_cons, if_pos he, List.any_cons] at *
      rw [ih]
    · simp only [hasKey, domSetChildren, List.map_cons, if_neg he, List.any_cons] at *
      rw [ih]

theorem hasKey_domErase (d : Dom) (n : NodeId) (q : NodeId) :
    hasKey (domErase d n) q = hasKey d q := by
  rcases d with ⟨es⟩
  induction es with
  | nil => rfl
  | cons e es ih =>
    simp only [hasKey, domErase, List.map_cons, List.any_cons] at *
    rw [ih]

theorem hasKey_domAppend (d : Dom) (p node : NodeId) (q : NodeId) :
    hasKey (domAppend d p node) q = hasKey d q := by
  unfold domAppend
  rw [hasKey_domSetChildren, hasKey_domErase]

theorem domGet_domAppend (d : Dom) (p : NodeId) (node : NodeId) (q : NodeId)
    (hp : hasKey d p = true) :
    domGet (domAppend d p node) q =
      if q = p then (domGet d p).filter (fun c => c != node) ++ [node]
      else (domGet d q).filter (fun c => c != node) := by
  by_cases h : q = p
  · subst h
    rw [if_pos rfl]
    unfold domAppend
    rw [domGet_domSetChildren_self _ _ _ (by rw [hasKey_domErase]; exact hp),
        domGet_domErase]
  · rw [if_neg h]
    unfold domAppend
    rw [domGet_domSetChildren_ne _ _ _ _ h, domGet_domErase]

/-- Removal of all members of `ms` from `l`. -/
def removeAll (l ms : List NodeId) : List NodeId :=
  l.filter (fun x => !(List.elem x ms))

theorem removeAll_nil (l : List NodeId) : removeAll l [] = l := by
  unfold removeAll
  apply List.filter_eq_self.mpr
  intro a _
  simp [List.elem]

theorem removeAll_filter_cons (l : List NodeId) (m : NodeId) (rest : List NodeId) :
    removeAll (l.filter (fun c => c != m)) rest = removeAll l (m :: rest) := by
  unfold removeAll
  rw [List.filter_filter]
  apply List.filter_congr
  intro x _
  cases hxm : x == m
  · have hne : x ≠ m := by simpa using hxm
    simp [List.elem_cons, hxm, bne, hne]
  · have heq : x = m := by simpa using hxm
    simp [List.elem_cons, hxm, bne, heq]

theorem removeAll_append (a b ms : List NodeId) :
    removeAll (a ++ b) ms = removeAll a ms ++ removeAll b ms := by
  unfold removeAll
  exact List.filter_append _ _

theorem removeAll_singleton_not_mem {m : NodeId} {rest : List NodeId} (h : m ∉ rest) :
    removeAll [m] rest = [m] := by
  unfold removeAll
  apply List.filter_eq_self.mpr
  intro a ha
  rw [List.mem_singleton] at ha
  subst ha
  simpa using h

theorem removeAll_eq_self {l ms : List NodeId} (h : ∀ x ∈ l, x ∉ ms) :
    removeAll l ms = l := by
  unfold removeAll
  apply List.filter_eq_self.mpr
  intro a ha
  simpa using h a ha

theorem removeAll_self_nil (ms : List NodeId) : removeAll ms ms = [] := by
  unfold removeAll
  apply List.filter_eq_nil_iff.mpr
  intro a ha
  simpa using ha

/-- Folding `body.appendChild` over `ms` on the page-mode skeleton: every
list loses the members of `ms` and the body additionally receives them at
its end, in order. -/
theorem foldAppend_skeleton4 (ms : List NodeId) (a b c e : List NodeId)
    (hnd : ms.Nodup) :
    ms.foldl (fun acc m => domAppend acc bodyId m)
        (⟨[(docRootId, a), (bodyId, b), (fragId, c), (pipBodyId, e)]⟩ : Dom) =
      ⟨[(docRootId, removeAll a ms), (bodyId, removeAll b ms ++ ms),
        (fragId, removeAll c ms), (pipBodyId, removeAll e ms)]⟩ := by
  induction ms generalizing a b c e with
  | nil => simp [removeAll_nil]
  | cons m rest ih =>
    rw [List.foldl_cons]
    have hstep :
        domAppend (⟨[(docRootId, a), (bodyId, b), (fragId, c), (pipBodyId, e)]⟩ : Dom)
            bodyId m =
          ⟨[(docRootId, a.filter (fun x => x != m)),
            (bodyId, b.filter (fun x => x != m) ++ [m]),
            (fragId, c.filter (fun x => x != m)),
            (pipBodyId, e.filter (fun x => x != m))]⟩ := by
      simp [domAppend, domErase, domSetChildren, domGet, domGetL,
            docRootId, bodyId, fragId, pipBodyId]
    rw [hstep, ih _ _ _ _ (List.nodup_cons.mp hnd).2]
    have hm : m ∉ rest := (List.nodup_cons.mp hnd).1
    rw [removeAll_filter_cons, removeAll_filter_cons, removeAll_filter_cons,
        removeAll_append, removeAll_filter_cons, removeAll_singleton_not_mem hm,
        List.append_assoc, List.singleton_append]

/-! ## Controller machine state

`MState` mirrors the module-level `state` object of pip-main.js plus the
externally observable document/window effects (DOM forest, marker
attributes, window scroll, active element, posted messages).  The three
attribute-snapshot fields (`originalBackground`, `htmlAttributes`,
`bodyAttributes`) are set and cleared together and are collapsed into the
single flag `stCaptured`. -/

inductive Msg where
  | pipState (st : String) (trigger : String) (mode : Option String)
  | pipUnsupported (reason : String)
  | pipSelection (st : String) (reason : Option String)
deriving DecidableEq

structure MState where
  dom : Dom
  bodyPresent : Bool
  pipxActive : Bool
  pipxState : Option String
  winScrollX : ℤ
  winScrollY : ℤ
  activeElement : Option NodeId
  stScroll : ℤ × ℤ
  stLastFocus : Option NodeId
  stMode : Option String
  stMovedNodes : Option (List NodeId)
  stSelectedElement : Option NodeId
  stElementParent : Option NodeId
  stElementNextSibling : Option NodeId
  stElementPlaceholder : Option NodeId
  stPlaceholder : Option NodeId
  stPipWindowSet : Bool
  reqWinClosed : Option Bool
  hideHandler : Bool
  resizeHandler : Bool
  styleObserver : Bool
  titleObserver : Bool
  styleMirrorSet : Bool
  elementResizeObserver : Bool
  stCaptured : Bool
  posts : List Msg
deriving DecidableEq

/-- Embeds `getActiveFocusableElement(body)` (pip-main.js:1230-1235): the
`root` argument at the call site is `body` itself, so both identity checks
exclude only the body. -/
def getActiveFocusableElement (s : MState) : Option NodeId :=
  match s.activeElement with
  | none => none
  | some a => if a = bodyId then none else some a

/-- Embeds `detachBodyContent(body)` (pip-main.js:917-926): the while-loop
moving `body.firstChild` into the fragment one node at a time amounts to
transferring the whole ordered child list. -/
def detachBodyContent (d : Dom) : Dom × List NodeId :=
  let moved := domGet d bodyId
  let d1 := domSetChildren d bodyId []
  (domSetChildren d1 fragId (domGet d1 fragId ++ moved), moved)

/-- Embeds the tail of `preparePipWindow` (pip-main.js:1004):
`pipDoc.body.appendChild(fragment)` empties the fragment into `dst` in
order. -/
def appendFragmentTo (d : Dom) (dst : NodeId) : Dom :=
  let cs := domGet d fragId
  let d1 := domSetChildren d fragId []
  domSetChildren d1 dst (domGet d1 dst ++ cs)

/-- Embeds `cleanupObservers` (pip-main.js:1168-1183). -/
def cleanupObserversM (s : MState) : MState :=
  { s with elementResizeObserver := false, styleObserver := false,
           titleObserver := false, styleMirrorSet := false }

/-- Failure injected into the open sequence: `placeholderIns` makes the
placeholder insertion throw, `prepareWin` makes `preparePipWindow` throw
at its final fragment-append step. -/
inductive FailPoint where
  | noFail
  | placeholderIns
  | prepareWin
deriving DecidableEq

/-- Embeds `detachElement(element)` (pip-main.js:928-948) with an optional
injected failure at the placeholder insertion.  The no-parent check comes
first, before the placeholder exists.  Returns the new forest, the
original parent and the captured next sibling. -/
def detachElementM (d : Dom) (ph : NodeId) (e : NodeId) (fail : FailPoint) :
    Except String (Dom × NodeId × Option NodeId) :=
  match parentOf d e with
  | none => .error "Selected element has no parent node"
  | some par =>
    if fail = FailPoint.placeholderIns then .error "placeholder-insert-failed"
    else
      match domInsertBefore d par ph (some e) with
      | .error msg => .error msg
      | .ok d1 =>
        let next := nextSiblingOf d1 e
        .ok (domAppend d1 fragId e, par, next)

/-- Embeds the `catch` block of `openPip` (pip-main.js:710-761).
`placeholderLocal` is the function-local `placeholder` variable;
`cleanupFail` makes the node-reinsertion step of the rollback itself
throw — that exception is caught and logged by the inner `catch`
(pip-main.js:738-740), skipping the rest of the inner `try` only.
The original error is re-thrown at the end (pip-main.js:760). -/
def openCatch (mode : String) (placeholderLocal : Option NodeId) (cleanupFail : Bool)
    (err : String) (s : MState) : Except String Unit × MState :=
  let s1 :=
    if cleanupFail then s
    else if mode = "page" then
      let moved := s.stMovedNodes.getD []
      let d := moved.foldl (fun acc m => domAppend acc bodyId m) s.dom
      { s with dom := d, stMovedNodes := none }
    else if mode = "element" then
      let afterMove : Option MState :=
        match s.stSelectedElement with
        | some e =>
          match s.stElementParent with
          | some par =>
            if isConnected s.dom par then
              match domInsertBefore s.dom par e s.stElementNextSibling with
              | .ok d => some { s with dom := d }
              | .error _ => none
            else some s
          | none => some s
        | none => some s
      match afterMove with
      | none => s
      | some sm =>
        let sp :=
          match sm.stElementPlaceholder with
          | some ph =>
              if isConnected sm.dom ph then { sm with dom := domRemove sm.dom ph } else sm
          | none => sm
        { sp with stSelectedElement := none, stElementParent := none,
                  stElementNextSibling := none, stElementPlaceholder := none }
    else s
  let s2 :=
    match placeholderLocal with
    | some ph => if isConnected s1.dom ph then { s1 with dom := domRemove s1.dom ph } else s1
    | none => s1
  let s3 := { s2 with pipxActive := false, pipxState := none }
  let s4 := cleanupObserversM { s3 with elementResizeObserver := false }
  let s5 := { s4 with reqWinClosed := s4.reqWinClosed.map (fun _ => true) }
  (.error err, { s5 with stMode := none })

/-- Embeds `openPip` for `mode: 'page'` (pip-main.js:534-767), starting
after `documentPictureInPicture.requestWindow` has succeeded (the fresh
open handle is recorded in `reqWinClosed`).  `ph` is the id of the node
built by `createPagePlaceholder`. -/
def openPipPage (ph : NodeId) (fail : FailPoint) (cleanupFail : Bool) (trigger : String)
    (s0 : MState) : Except String Unit × MState :=
  let s := { s0 with elementResizeObserver := false, reqWinClosed := some false }
  if s.bodyPresent = false then
    (.ok (), { s with reqWinClosed := some true,
                      posts := s.posts ++ [Msg.pipUnsupported "body-missing"] })
  else
  let previousFocus := getActiveFocusableElement s
  let previousScroll := (s.winScrollX, s.winScrollY)
  let s := { s with stCaptured := true, stMode := some "page",
                    stMovedNodes := none, stSelectedElement := none,
                    stElementParent := none, stElementNextSibling := none,
                    stElementPlaceholder := none, stPlaceholder := none }
  let r := detachBodyContent s.dom
  let s := { s with dom := r.1, stMovedNodes := some r.2 }
  if fail = FailPoint.placeholderIns then
    openCatch "page" (some ph) cleanupFail "placeholder-insert-failed" s
  else
  let s := { s with dom := domAppend s.dom bodyId ph }
  let s := { s with stPlaceholder := some ph }
  let s := { s with pipxActive := true, pipxState := some "placeholder" }
  let s := { s with styleObserver := true, styleMirrorSet := true, titleObserver := true }
  if fail = FailPoint.prepareWin then
    openCatch "page" (some ph) cleanupFail "prepare-failed" s
  else
  let s := { s with dom := appendFragmentTo s.dom pipBodyId }
  let s := { s with hideHandler := true, resizeHandler := true,
                    stPipWindowSet := true, stScroll := previousScroll,
                    stLastFocus := previousFocus }
  (.ok (), { s with posts := s.posts ++ [Msg.pipState "open" trigger (some "page")] })

/-- The `element` argument of an element-mode open: absent, a non-Element
node, or an Element by id. -/
inductive Target where
  | missing
  | nonElement (id : NodeId)
  | elem (id : NodeId)
deriving DecidableEq

/-- Embeds `openPip` for `mode: 'element'` (pip-main.js:534-767), starting
after `requestWindow` has succeeded.  The target validity check
(pip-main.js:631-633) throws inside the `try`, before any DOM mutation. -/
def openPipElement (target : Target) (ph : NodeId) (fail : FailPoint) (cleanupFail : Bool)
    (trigger : String) (s0 : MState) : Except String Unit × MState :=
  let s := { s0 with elementResizeObserver := false, reqWinClosed := some false }
  if s.bodyPresent = false then
    (.ok (), { s with reqWinClosed := some true,
                      posts := s.posts ++ [Msg.pipUnsupported "body-missing"] })
  else
  let s := { s with stCaptured := true, stMode := some "element",
                    stMovedNodes := none, stSelectedElement := none,
                    stElementParent := none, stElementNextSibling := none,
                    stElementPlaceholder := none, stPlaceholder := none }
  let invalid : Bool :=
    match target with
    | .missing => true
    | .nonElement _ => true
    | .elem e => !(isConnected s.dom e)
  if invalid then
    openCatch "element" none cleanupFail "Selected element is not available in the document" s
  else
  match target with
  | .missing => openCatch "element" none cleanupFail "Selected element is not available in the document" s
  | .nonElement _ => openCatch "element" none cleanupFail "Selected element is not available in the document" s
  | .elem e =>
    let previousFocus := getActiveFocusableElement s
    let previousScroll := (s.winScrollX, s.winScrollY)
    match detachElementM s.dom ph e fail with
    | .error msg => openCatch "element" none cleanupFail msg s
    | .ok (d1, par, next) =>
      let s := { s with dom := d1, stSelectedElement := some e, stElementParent := some par,
                        stElementNextSibling := next, stElementPlaceholder := some ph }
      let s := { s with stPlaceholder := some ph }
      let s := { s with pipxActive := true, pipxState := some "element-placeholder" }
      let s := { s with styleObserver := true, styleMirrorSet := true, titleObserver := true }
      if fail = FailPoint.prepareWin then
        openCatch "element" (some ph) cleanupFail "prepare-failed" s
      else
      let s := { s with dom := appendFragmentTo s.dom pipBodyId }
      let s := { s with hideHandler := true, resizeHandler := true,
                        stPipWindowSet := true, stScroll := previousScroll,
                        stLastFocus := previousFocus }
      let s := { s with elementResizeObserver := true }
      (.ok (), { s with posts := s.posts ++ [Msg.pipState "open" trigger (some "element")] })

/-- Embeds the `mode === 'page'` branch of `restore` (pip-main.js:784-792).
Note that `state.placeholder` is removed from the document but the field
itself is not cleared in this branch. -/
def restorePageBranch (s : MState) : MState :=
  let moved := s.stMovedNodes.getD []
  let d1 := moved.foldl (fun acc m => domAppend acc bodyId m) s.dom
  let s1 := { s with dom := d1, stMovedNodes := none }
  match s1.stPlaceholder with
  | some ph => if isConnected s1.dom ph then { s1 with dom := domRemove s1.dom ph } else s1
  | none => s1

/-- Embeds the `mode === 'element'` branch of `restore`
(pip-main.js:794-820).  The `document.adoptNode(element)` call first takes
the element out of the PiP tree; a `NotFoundError` raised afterwards by
`parent.insertBefore(adopt, nextSibling)` propagates out of the branch —
no later statement of `restore` runs, and the already-adopted element is
left attached to no surface. -/
def restoreElementBranch (s : MState) : Except String Unit × MState :=
  let step : Except String Unit × MState :=
    match s.stSelectedElement with
    | some e =>
      match s.stElementParent with
      | some par =>
        if isConnected s.dom par then
          -- `const adopt = ... document.adoptNode(element)` (pip-main.js:801):
          -- at close time the element lives in the PiP document, so the
          -- adoption takes it out of the PiP tree before any insertion is
          -- attempted; a subsequent `insertBefore` throw leaves it detached.
          let d0 := domErase s.dom e
          match s.stElementPlaceholder with
          | some ph =>
            if parentOf d0 ph = some par then
              match domInsertBefore d0 par e (some ph) with
              | .ok d1 => (.ok (), { s with dom := domRemove d1 ph })
              | .error msg => (.error msg, { s with dom := d0 })
            else
              match domInsertBefore d0 par e s.stElementNextSibling with
              | .ok d1 =>
                  (.ok (), { s with dom := if isConnected d1 ph then domRemove d1 ph else d1 })
              | .error msg => (.error msg, { s with dom := d0 })
          | none =>
            match domInsertBefore d0 par e s.stElementNextSibling with
            | .ok d1 => (.ok (), { s with dom := d1 })
            | .error msg => (.error msg, { s with dom := d0 })
        else (.ok (), { s with dom := domAppend s.dom bodyId e })
      | none => (.ok (), { s with dom := domAppend s.dom bodyId e })
    | none => (.ok (), s)
  match step with
  | (.error msg, s1) => (.error msg, s1)
  | (.ok _, s1) =>
    (.ok (), { s1 with stSelectedElement := none, stElementParent := none,
                       stElementNextSibling := none, stElementPlaceholder := none,
                       stPlaceholder := none })

/-- Embeds the body of `restore(trigger)` (pip-main.js:769-874), the
single serialized close path for both modes (and for the idle no-session
case, where `state.mode` is `null` and both branches are skipped).  On an
element-branch exception the rejection propagates: none of the later
statements run (the promise bookkeeping in `finally` is modelled at the
controller level). -/
def restoreRun (trigger : String) (s0 : MState) : Except String Unit × MState :=
  let s := { s0 with elementResizeObserver := false }
  let activeMode := s.stMode
  let step1 : Except String Unit × MState :=
    if activeMode = some "page" then (.ok (), restorePageBranch s)
    else if activeMode = some "element" then restoreElementBranch s
    else (.ok (), s)
  match step1 with
  | (.error e, s1) => (.error e, s1)
  | (.ok _, s1) =>
    let s2 := { s1 with pipxState := none, pipxActive := false }
    let s3 := cleanupObserversM s2
    let s4 :=
      if s3.stPipWindowSet then
        { s3 with reqWinClosed := s3.reqWinClosed.map (fun _ => true) }
      else s3
    let s5 := { s4 with stPipWindowSet := false, hideHandler := false, resizeHandler := false }
    let s6 := { s5 with winScrollX := s5.stScroll.1, winScrollY := s5.stScroll.2 }
    let s7 :=
      match s6.stLastFocus with
      | some f => if containsNode s6.dom bodyId f then { s6 with activeElement := some f } else s6
      | none => s6
    let s8 := { s7 with stLastFocus := none, stCaptured := false, stMode := none }
    (.ok (), { s8 with posts := s8.posts ++ [Msg.pipState "closed" trigger activeMode] })

/-! ## Promise memoization (Window Lifecycle Controller)

`Ctrl` abstracts the promise bookkeeping of pip-main.js: the single-slot
`state.openPromise` / `state.restorePromise` references, the
`state.pipWindow && !state.pipWindow.closed` test, and the number of
`documentPictureInPicture.requestWindow` calls.  The check-and-set of each
entry point is synchronous in the source (no `await` separates the check
from the assignment), so each entry is one atomic step; the `.finally`
handlers that clear a slot are the completion events. -/

structure Ctrl where
  openPromise : Option ℕ
  restorePromise : Option ℕ
  pipOpen : Bool
  surfaces : ℕ
  nextId : ℕ
deriving DecidableEq

/-- Embeds the entry of `restore(trigger)` (pip-main.js:769-773): a close
already in flight is returned unchanged, otherwise a fresh promise is
memoized in the single `restorePromise` slot. -/
def restoreEnter (c : Ctrl) : Ctrl × ℕ :=
  match c.restorePromise with
  | some p => (c, p)
  | none => ({ c with restorePromise := some c.nextId, nextId := c.nextId + 1 }, c.nextId)

/-- Embeds the entry of `openPip` (pip-main.js:534-554): an open already in
flight is returned unchanged; an open window turns the call into `restore`;
otherwise a fresh open promise is memoized and its body requests exactly
one new floating surface. -/
def openPipEnter (c : Ctrl) : Ctrl × ℕ :=
  match c.openPromise with
  | some p => (c, p)
  | none =>
    if c.pipOpen then restoreEnter c
    else ({ c with openPromise := some c.nextId, surfaces := c.surfaces + 1,
                   nextId := c.nextId + 1 }, c.nextId)

/-- Embeds the entry of `toggle` / `toggleWithOptions`
(pip-main.js:143-235): the same openPromise and open-window checks,
falling through to `openPip`. -/
def toggleEnter (c : Ctrl) : Ctrl × ℕ :=
  match c.openPromise with
  | some p => (c, p)
  | none => if c.pipOpen then restoreEnter c else openPipEnter c

/-- Controller events: the three request entry points and the two
`.finally` completions (pip-main.js:762-764, 868-871); `openDone` carries
whether the open succeeded. -/
inductive CtrlEv where
  | toggleReq
  | openReq
  | closeReq
  | openDone (success : Bool)
  | closeDone
deriving DecidableEq

/-- One controller step. -/
def ctrlStep (e : CtrlEv) (c : Ctrl) : Ctrl :=
  match e with
  | .toggleReq => (toggleEnter c).1
  | .openReq => (openPipEnter c).1
  | .closeReq => (restoreEnter c).1
  | .openDone ok => { c with openPromise := none, pipOpen := ok }
  | .closeDone => { c with restorePromise := none, pipOpen := false }

/-! ## Element Selection Mode -/

/-- The observable state of Element Selection Mode: whether a
`SelectionContext` is installed (`state.selection`), whether its overlay
nodes are in the document, the crosshair cursor, and the notifications
posted so far. -/
structure SelState where
  selActive : Bool
  overlayConnected : Bool
  cursorCrosshair : Bool
  posts : List Msg
deriving DecidableEq

/-- Embeds `cancelElementSelection(reason)` (pip-main.js:351-377): with no
active selection it returns immediately, otherwise it removes the overlay,
restores the cursor, clears `state.selection` and posts one idle
notification carrying the reason. -/
def cancelElementSelectionM (reason : String) (s : SelState) : SelState :=
  if s.selActive = false then s
  else { s with selActive := false, overlayConnected := false, cursorCrosshair := false,
                posts := s.posts ++ [Msg.pipSelection "idle" (some reason)] }

/-- Embeds the synchronous part of `finishElementSelection(target, trigger)`
(pip-main.js:379-404): a missing or non-Element target cancels with reason
`empty`; otherwise the overlay is torn down synchronously with reason
`selected` and the open of the picked element is returned as the deferred
microtask payload (second component), not performed here. -/
def finishElementSelection (target : Target) (s : SelState) : SelState × Option NodeId :=
  match target with
  | .missing => (cancelElementSelectionM "empty" s, none)
  | .nonElement _ => (cancelElementSelectionM "empty" s, none)
  | .elem e => (cancelElementSelectionM "selected" s, some e)

/-- Embeds the deferred microtask of `finishElementSelection`
(pip-main.js:388-403): at microtask time the picked element's
connectedness is re-checked against the current document; a detached
element aborts silently (a log line only), otherwise `openElementInPip`
is invoked with it.  Returns the element handed to the open request, or
`none` when no open is attempted. -/
def runDeferredOpen (d : Dom) (deferred : Option NodeId) : Option NodeId :=
  match deferred with
  | some e => if isConnected d e then some e else none
  | none => none

/-! ## Stylesheet Mirror

Style-bearing nodes are modelled as records of tag, attributes and text.
A `MRec` is one MutationObserver record; `attrChanged`/`charData` carry
the target node in its CURRENT state, because the handler reads
`mutation.target.getAttribute(...)` / `owner.textContent` live.  The
`observe` options (pip-main.js:1138-1144) restrict which attribute
records are delivered at all. -/

structure SNode where
  id : ℕ
  isElem : Bool
  tag : String
  attrs : List (String × String)
  text : String
deriving DecidableEq

/-- Embeds `node.getAttribute(name)`. -/
def getAttrN (n : SNode) (name : String) : Option String :=
  (n.attrs.find? (fun a => a.1 == name)).map (fun a => a.2)

/-- Embeds `node.setAttribute(name, v)` (attribute order is immaterial to
every property proved here). -/
def setAttrN (n : SNode) (name v : String) : SNode :=
  { n with attrs := n.attrs.filter (fun a => a.1 != name) ++ [(name, v)] }

/-- Embeds `node.removeAttribute(name)`. -/
def removeAttrN (n : SNode) (name : String) : SNode :=
  { n with attrs := n.attrs.filter (fun a => a.1 != name) }

/-- Embeds the regex test `/\bstylesheet\b/i.test(rel)`: the word
`stylesheet` must occur delimited by non-word characters (word characters
being letters, digits and underscore), case-insensitively. -/
def relHasStylesheetWord (s : String) : Bool :=
  (s.toLower.split (fun c => !(c.isAlphanum || c == '_'))).contains "stylesheet"

/-- Embeds `isStylesheetNode` (pip-main.js:1185-1193). -/
def isStylesheetNode (n : SNode) : Bool :=
  if !n.isElem then false
  else if n.tag == "STYLE" then true
  else if n.tag == "LINK" then relHasStylesheetWord ((getAttrN n "rel").getD "")
  else false

/-- Embeds `node.dataset?.pipxNoMirror === 'true'`: the mirror-exempt
marker attribute `data-pipx-no-mirror` set to exactly `true`. -/
def isMirrorExempt (n : SNode) : Bool :=
  getAttrN n "data-pipx-no-mirror" == some "true"

/-- Embeds the local `shouldMirror` predicate of `copyStylesheets`
(pip-main.js:1080-1084). -/
def shouldMirror (n : SNode) : Bool :=
  n.isElem && isStylesheetNode n && !(isMirrorExempt n)

/-- The `MirrorRegistration`: the source-id → clone-id map (`mirrorMap`),
the clones living in the PiP head, and a fresh-id counter for clones. -/
structure MirrorState where
  map : List (ℕ × ℕ)
  pipHead : List SNode
  nextCloneId : ℕ
deriving DecidableEq

/-- Embeds `mirrorMap.get(node)` keyed by source node id. -/
def mirrorLookup (st : MirrorState) (srcId : ℕ) : Option ℕ :=
  (st.map.find? (fun e => e.1 == srcId)).map (fun e => e.2)

/-- Embeds `node.cloneNode(true); pipDoc.head.appendChild(clone);
mirrorMap.set(node, clone)`. -/
def cloneInto (st : MirrorState) (n : SNode) : MirrorState :=
  { map := st.map ++ [(n.id, st.nextCloneId)],
    pipHead := st.pipHead ++ [{ n with id := st.nextCloneId }],
    nextCloneId := st.nextCloneId + 1 }

/-- Applies an update to the clone with id `cid` in the PiP head. -/
def updateClone (st : MirrorState) (cid : ℕ) (f : SNode → SNode) : MirrorState :=
  { st with pipHead := st.pipHead.map (fun c => if c.id = cid then f c else c) }

/-- One MutationObserver record as seen by the callback. -/
inductive MRec where
  | childAdded (n : SNode)
  | childRemoved (srcId : ℕ)
  | attrChanged (target : SNode) (name : String)
  | charData (owner : SNode)
deriving DecidableEq

/-- Embeds the `observer.observe(head, {...})` options
(pip-main.js:1138-1144): attribute records are produced only for the four
attributes in `attributeFilter`; childList and characterData records are
always produced. -/
def deliverable (r : MRec) : Bool :=
  match r with
  | .attrChanged _ name => ["media", "disabled", "href", "crossorigin"].contains name
  | _ => true

/-- Embeds one iteration of the MutationObserver callback of
`copyStylesheets` (pip-main.js:1094-1136). -/
def processMutation (st : MirrorState) (r : MRec) : MirrorState :=
  match r with
  | .childAdded n =>
      if shouldMirror n && (mirrorLookup st n.id).isNone then cloneInto st n else st
  | .childRemoved srcId =>
      match mirrorLookup st srcId with
      | some cid =>
          { st with pipHead := st.pipHead.filter (fun c => c.id != cid),
                    map := st.map.filter (fun e => e.1 != srcId) }
      | none => st
  | .attrChanged target name =>
      if isMirrorExempt target then st
      else
        match mirrorLookup st target.id with
        | some cid =>
          match getAttrN target name with
          | none => updateClone st cid (fun c => removeAttrN c name)
          | some v => updateClone st cid (fun c => setAttrN c name v)
        | none => st
  | .charData owner =>
      match mirrorLookup st owner.id with
      | some cid => updateClone st cid (fun c => { c with text := owner.text })
      | none => st

/-- The observer pipeline: the platform delivers only the records allowed
by the `observe` options, then the callback processes them in order. -/
def observerFlush (st : MirrorState) (recs : List MRec) : MirrorState :=
  (recs.filter deliverable).foldl processMutation st

/-- Embeds the initial enumeration of `copyStylesheets`
(pip-main.js:1086-1092): every style-bearing, non-exempt node of the
source head is cloned and registered. -/
def copyStylesheetsInit (headNodes : List SNode) : MirrorState :=
  headNodes.foldl (fun st n => if shouldMirror n then cloneInto st n else st)
    { map := [], pipHead := [], nextCloneId := 1000 }

/-! ## Shared helper lemmas for the claim theorems -/

theorem le_jsRound_of_le {lo : ℤ} {q : ℚ} (h : (lo : ℚ) ≤ q) : lo ≤ jsRound q := by
  unfold jsRound
  exact Int.le_floor.mpr (by linarith)

theorem jsRound_le_of_le {q : ℚ} {hi : ℤ} (h : q ≤ (hi : ℚ)) : jsRound q ≤ hi := by
  unfold jsRound
  calc ⌊q + 1 / 2⌋ ≤ ⌊(hi : ℚ) + 1 / 2⌋ := Int.floor_mono (by linarith)
    _ = hi + ⌊((1 : ℚ) / 2)⌋ := Int.floor_int_add hi ((1 : ℚ) / 2)
    _ = hi := by norm_num

theorem jsRound_intCast (z : ℤ) : jsRound (z : ℚ) = z :=
  le_antisymm (jsRound_le_of_le le_rfl) (le_jsRound_of_le le_rfl)

theorem clampPipWindowSize_bounds (swOpt shOpt : Option ℕ) (w h : JSNum) :
    80 ≤ (clampPipWindowSize swOpt shOpt w h).1 ∧
    (clampPipWindowSize swOpt shOpt w h).1 ≤
      max 80 (min ((swOpt.getD 1920 : ℕ) : ℤ) 1920) ∧
    60 ≤ (clampPipWindowSize swOpt shOpt w h).2 ∧
    (clampPipWindowSize swOpt shOpt w h).2 ≤
      max 60 (min ((shOpt.getD 1080 : ℕ) : ℤ) 1200) := by
  have hcastW : ((max 80 (min ((swOpt.getD 1920 : ℕ) : ℤ) 1920) : ℤ) : ℚ) =
      max 80 (min ((swOpt.getD 1920 : ℕ) : ℚ) 1920) := by push_cast; ring_nf
  have hcastH : ((max 60 (min ((shOpt.getD 1080 : ℕ) : ℤ) 1200) : ℤ) : ℚ) =
      max 60 (min ((shOpt.getD 1080 : ℕ) : ℚ) 1200) := by push_cast; ring_nf
  unfold clampPipWindowSize
  refine ⟨?_, ?_, ?_, ?_⟩
  · exact le_jsRound_of_le (by
      push_cast
      exact le_min (le_max_right _ _) (le_max_left _ _))
  · exact jsRound_le_of_le (by rw [hcastW]; exact min_le_right _ _)
  · exact le_jsRound_of_le (by
      push_cast
      exact le_min (le_max_right _ _) (le_max_left _ _))
  · exact jsRound_le_of_le (by rw [hcastH]; exact min_le_right _ _)

theorem clampPipWindowSize_id (sw sh : ℕ) (w h : ℤ)
    (hw0 : (0 : ℚ) < (w : ℚ)) (hh0 : (0 : ℚ) < (h : ℚ))
    (hw80 : (80 : ℚ) ≤ (w : ℚ)) (hh60 : (60 : ℚ) ≤ (h : ℚ))
    (hwmax : (w : ℚ) ≤ max 80 (min ((sw : ℕ) : ℚ) 1920))
    (hhmax : (h : ℚ) ≤ max 60 (min ((sh : ℕ) : ℚ) 1200)) :
    clampPipWindowSize (some sw) (some sh) (JSNum.fin (w : ℚ)) (JSNum.fin (h : ℚ)) =
      (w, h) := by
  unfold clampPipWindowSize
  simp only [Option.getD, safeDim]
  rw [if_pos hw0, if_pos hh0, max_eq_left hw80, max_eq_left hh60,
      min_eq_left hwmax, min_eq_left hhmax, jsRound_intCast, jsRound_intCast]

theorem safeDim_invalid {v : JSNum} {dflt : ℚ}
    (h : v.isFiniteNum = false ∨ v.isPosNum = false) : safeDim v dflt = dflt := by
  cases v with
  | fin q =>
    rcases h with h | h
    · simp [JSNum.isFiniteNum] at h
    · simp only [JSNum.isPosNum, decide_eq_false_iff_not] at h
      simp [safeDim, h]
  | nan => rfl
  | posInf => rfl
  | negInf => rfl

/-! ## Claim theorems -/

/-- C1: at most one open-operation is in flight at any time: a toggle or
open request issued while an open is in flight returns the same in-flight
promise, leaves the controller unchanged (so no second floating surface is
requested), and likewise a close issued while a close is in flight returns
that same in-flight promise; each memoized slot is cleared by nothing but
the corresponding completion event (success or failure). -/
theorem pip_c1_single_flight (c : Ctrl) :
    (∀ p, c.openPromise = some p →
       toggleEnter c = (c, p) ∧ openPipEnter c = (c, p) ∧
       (toggleEnter c).1.surfaces = c.surfaces ∧
       (openPipEnter c).1.surfaces = c.surfaces ∧
       (∀ e : CtrlEv, (ctrlStep e c).openPromise ≠ some p →
          e = CtrlEv.openDone true ∨ e = CtrlEv.openDone false)) ∧
    (∀ q, c.restorePromise = some q →
       restoreEnter c = (c, q) ∧
       (∀ e : CtrlEv, (ctrlStep e c).restorePromise ≠ some q →
          e = CtrlEv.closeDone)) := by
  constructor
  · intro p hp
    have ht : toggleEnter c = (c, p) := by unfold toggleEnter; rw [hp]
    have ho : openPipEnter c = (c, p) := by unfold openPipEnter; rw [hp]
    refine ⟨ht, ho, by rw [ht], by rw [ho], ?_⟩
    intro e he
    cases e with
    | toggleReq =>
      exfalso; apply he
      show (toggleEnter c).1.openPromise = some p
      rw [ht]; exact hp
    | openReq =>
      exfalso; apply he
      show (openPipEnter c).1.openPromise = some p
      rw [ho]; exact hp
    | closeReq =>
      exfalso; apply he
      show (restoreEnter c).1.openPromise = some p
      unfold restoreEnter
      cases hr : c.restorePromise <;> simp [hp]
    | openDone b => cases b with
      | false => exact Or.inr rfl
      | true => exact Or.inl rfl
    | closeDone => exact absurd hp he
  · intro q hq
    have hr : restoreEnter c = (c, q) := by unfold restoreEnter; rw [hq]
    refine ⟨hr, ?_⟩
    intro e he
    cases e with
    | toggleReq =>
      exfalso; apply he
      show (toggleEnter c).1.restorePromise = some q
      unfold toggleEnter openPipEnter
      cases ho : c.openPromise <;> cases hpo : c.pipOpen <;> simp [hr, hq]
    | openReq =>
      exfalso; apply he
      show (openPipEnter c).1.restorePromise = some q
      unfold openPipEnter
      cases ho : c.openPromise <;> cases hpo : c.pipOpen <;> simp [hpo, hr, hq]
    | closeReq =>
      exfalso; apply he
      show (restoreEnter c).1.restorePromise = some q
      rw [hr]; exact hq
    | openDone b => exact absurd hq he
    | closeDone => rfl

/-- Witness for `pip_c1_single_flight` at a controller with both an open
and a close in flight. -/
theorem pip_c1_single_flight_witness :
    toggleEnter ⟨some 5, some 6, false, 1, 7⟩ = (⟨some 5, some 6, false, 1, 7⟩, 5) ∧
    restoreEnter ⟨some 5, some 6, false, 1, 7⟩ = (⟨some 5, some 6, false, 1, 7⟩, 6) := by
  have h := pip_c1_single_flight ⟨some 5, some 6, false, 1, 7⟩
  exact ⟨(h.1 5 rfl).1, (h.2 6 rfl).1⟩

/-- C10: `clampPipWindowSize` is total: for every pair of JS-number inputs
(NaN, infinite, zero and negative included) it returns integers with
`80 ≤ width ≤ max 80 (min availWidth 1920)` and
`60 ≤ height ≤ max 60 (min availHeight 1200)`, and any input that is not a
finite positive number is replaced by the default 640 (width) or 360
(height) before clamping. -/
theorem pip_c10_clamp_total (swOpt shOpt : Option ℕ) (w h : JSNum) :
    (80 ≤ (clampPipWindowSize swOpt shOpt w h).1 ∧
     (clampPipWindowSize swOpt shOpt w h).1 ≤
       max 80 (min ((swOpt.getD 1920 : ℕ) : ℤ) 1920) ∧
     60 ≤ (clampPipWindowSize swOpt shOpt w h).2 ∧
     (clampPipWindowSize swOpt shOpt w h).2 ≤
       max 60 (min ((shOpt.getD 1080 : ℕ) : ℤ) 1200)) ∧
    (w.isFiniteNum = false ∨ w.isPosNum = false →
       clampPipWindowSize swOpt shOpt w h =
         clampPipWindowSize swOpt shOpt (JSNum.fin 640) h) ∧
    (h.isFiniteNum = false ∨ h.isPosNum = false →
       clampPipWindowSize swOpt shOpt w h =
         clampPipWindowSize swOpt shOpt w (JSNum.fin 360)) := by
  refine ⟨clampPipWindowSize_bounds swOpt shOpt w h, ?_, ?_⟩
  · intro hw
    unfold clampPipWindowSize
    rw [safeDim_invalid hw]
    norm_num [safeDim]
  · intro hh
    unfold clampPipWindowSize
    rw [safeDim_invalid hh]
    norm_num [safeDim]

/-- Witness for `pip_c10_clamp_total`: NaN width and negative height are
both replaced by the defaults, and the result stays within bounds. -/
theorem pip_c10_clamp_total_witness :
    (clampPipWindowSize none none JSNum.nan (JSNum.fin (-5)) =
       clampPipWindowSize none none (JSNum.fin 640) (JSNum.fin (-5))) ∧
    (clampPipWindowSize none none JSNum.nan (JSNum.fin (-5)) =
       clampPipWindowSize none none JSNum.nan (JSNum.fin 360)) ∧
    80 ≤ (clampPipWindowSize none none JSNum.nan (JSNum.fin (-5))).1 := by
  have h := pip_c10_clamp_total none none JSNum.nan (JSNum.fin (-5))
  exact ⟨h.2.1 (Or.inl rfl), h.2.2 (Or.inr rfl), h.1.1⟩

/-- Modelled from the spec for comparison with the code (claim C9): a
desired width equal to "the element's rendered box plus a fixed padding,
clamped so that each dimension is at least the fixed minimum and at most
the available screen size minus a fixed margin". -/
def specDesiredWidth (pad margin screenW : ℕ) (w : ℚ) : ℤ :=
  jsRound (min (max (w + (pad : ℚ)) 80) ((screenW : ℚ) - (margin : ℚ)))

/-- C9 counterexample: on a 1920×1080 screen the code resizes a 100×100
box to exactly 100×100 and a 500×500 box to exactly 500×500, which no
choice of a positive fixed padding (with any fixed margin) can produce:
the computation adds no padding to the rendered box. -/
theorem pip_c9_counterexample :
    resizePipWindowToElement (some (640, 360)) (some 1920) (some 1080) 100 100 =
      some (100, 100) ∧
    resizePipWindowToElement (some (640, 360)) (some 1920) (some 1080) 500 500 =
      some (500, 500) ∧
    ¬ ∃ pad margin : ℕ, 0 < pad ∧
        specDesiredWidth pad margin 1920 100 = 100 ∧
        specDesiredWidth pad margin 1920 500 = 500 := by
  have hc1 : clampPipWindowSize (some 1920) (some 1080) (JSNum.fin 100) (JSNum.fin 100)
      = (100, 100) := by
    have hq : (100 : ℚ) = ((100 : ℤ) : ℚ) := by norm_num
    rw [hq]
    exact clampPipWindowSize_id 1920 1080 100 100 (by norm_num) (by norm_num)
      (by norm_num) (by norm_num) (by norm_num [min_def, max_def])
      (by norm_num [min_def, max_def])
  have hc5 : clampPipWindowSize (some 1920) (some 1080) (JSNum.fin 500) (JSNum.fin 500)
      = (500, 500) := by
    have hq : (500 : ℚ) = ((500 : ℤ) : ℚ) := by norm_num
    rw [hq]
    exact clampPipWindowSize_id 1920 1080 500 500 (by norm_num) (by norm_num)
      (by norm_num) (by norm_num) (by norm_num [min_def, max_def])
      (by norm_num [min_def, max_def])
  refine ⟨?_, ?_, ?_⟩
  · unfold resizePipWindowToElement
    rw [if_neg (by norm_num)]
    simp only [hc1]
    rw [if_neg (by decide)]
  · unfold resizePipWindowToElement
    rw [if_neg (by norm_num)]
    simp only [hc5]
    rw [if_neg (by decide)]
  · rintro ⟨pad, margin, hpad, h1, h2⟩
    unfold specDesiredWidth at h1 h2
    push_cast at h1 h2
    have hp0 : (0 : ℚ) ≤ (pad : ℚ) := Nat.cast_nonneg pad
    have hmax100 : max ((100 : ℚ) + (pad : ℚ)) 80 = (100 : ℚ) + (pad : ℚ) :=
      max_eq_left (by linarith)
    have hmax500 : max ((500 : ℚ) + (pad : ℚ)) 80 = (500 : ℚ) + (pad : ℚ) :=
      max_eq_left (by linarith)
    rw [hmax100] at h1
    rw [hmax500] at h2
    rcases le_total ((100 : ℚ) + (pad : ℚ)) ((1920 : ℚ) - (margin : ℚ)) with hle | hle
    · rw [min_eq_left hle] at h1
      have hcast : ((100 + (pad : ℤ) : ℤ) : ℚ) = (100 : ℚ) + (pad : ℚ) := by
        push_cast; ring
      rw [← hcast, jsRound_intCast] at h1
      omega
    · rw [min_eq_right hle] at h1
      have hle2 : ((1920 : ℚ) - (margin : ℚ)) ≤ (500 : ℚ) + (pad : ℚ) := by linarith
      rw [min_eq_right hle2] at h2
      rw [h1] at h2
      exact absurd h2 (by norm_num)

/-- C9 (amended): the auto-resize computation produces a desired
floating-window size equal to the element's rendered box — with no
padding added — clamped so that each dimension is at least the fixed
minimum (80×60) and at most the available screen size capped at
1920×1200; and a recomputed size whose width and height each differ from
the last applied size by at most one unit issues no resize request. -/
theorem pip_c9_resize_amended (last : Option (ℤ × ℤ)) (swOpt shOpt : Option ℕ)
    (w h : ℚ) (hw : w ≠ 0) (hh : h ≠ 0) :
    (∀ lw lh, last = some (lw, lh) →
       (lw - (clampPipWindowSize swOpt shOpt (JSNum.fin w) (JSNum.fin h)).1).natAbs ≤ 1 →
       (lh - (clampPipWindowSize swOpt shOpt (JSNum.fin w) (JSNum.fin h)).2).natAbs ≤ 1 →
       resizePipWindowToElement last swOpt shOpt w h = none) ∧
    (resizePipWindowToElement none swOpt shOpt w h =
       some (clampPipWindowSize swOpt shOpt (JSNum.fin w) (JSNum.fin h))) ∧
    80 ≤ (clampPipWindowSize swOpt shOpt (JSNum.fin w) (JSNum.fin h)).1 ∧
    (clampPipWindowSize swOpt shOpt (JSNum.fin w) (JSNum.fin h)).1 ≤
      max 80 (min ((swOpt.getD 1920 : ℕ) : ℤ) 1920) ∧
    60 ≤ (clampPipWindowSize swOpt shOpt (JSNum.fin w) (JSNum.fin h)).2 ∧
    (clampPipWindowSize swOpt shOpt (JSNum.fin w) (JSNum.fin h)).2 ≤
      max 60 (min ((shOpt.getD 1080 : ℕ) : ℤ) 1200) := by
  have hb := clampPipWindowSize_bounds swOpt shOpt (JSNum.fin w) (JSNum.fin h)
  refine ⟨?_, ?_, hb.1, hb.2.1, hb.2.2.1, hb.2.2.2⟩
  · intro lw lh hlast hw1 hh1
    subst hlast
    unfold resizePipWindowToElement
    rw [if_neg (by push_neg; exact ⟨hw, hh⟩)]
    simp only
    rw [if_pos ⟨hw1, hh1⟩]
  · unfold resizePipWindowToElement
    rw [if_neg (by push_neg; exact ⟨hw, hh⟩)]

/-- Witness for `pip_c9_resize_amended`: a 100×100 box on a 1920×1080
screen with last applied size 100×100 issues no resize; with no last size
it requests exactly 100×100. -/
theorem pip_c9_resize_amended_witness :
    resizePipWindowToElement (some (100, 100)) (some 1920) (some 1080) 100 100 = none ∧
    resizePipWindowToElement none (some 1920) (some 1080) 100 100 = some (100, 100) := by
  have hc : clampPipWindowSize (some 1920) (some 1080) (JSNum.fin 100) (JSNum.fin 100) =
      (100, 100) := by
    have hq : (100 : ℚ) = ((100 : ℤ) : ℚ) := by norm_num
    rw [hq]
    exact clampPipWindowSize_id 1920 1080 100 100 (by norm_num) (by norm_num)
      (by norm_num) (by norm_num) (by norm_num [min_def, max_def])
      (by norm_num [min_def, max_def])
  have h := pip_c9_resize_amended (some (100, 100)) (some 1920) (some 1080) 100 100
    (by norm_num) (by norm_num)
  refine ⟨h.1 100 100 rfl ?_ ?_, ?_⟩
  · rw [hc]; decide
  · rw [hc]; decide
  · have h2 := pip_c9_resize_amended (none : Option (ℤ × ℤ)) (some 1920) (some 1080)
      100 100 (by norm_num) (by norm_num)
    rw [h2.2.1, hc]

/-- A freshly booted controller state: nothing open, nothing captured,
and the user has scrolled the window to (5, 7). -/
def idleProbeState : MState :=
  { dom := ⟨[(docRootId, [bodyId]), (bodyId, []), (fragId, []), (pipBodyId, [])]⟩,
    bodyPresent := true, pipxActive := false, pipxState := none,
    winScrollX := 5, winScrollY := 7, activeElement := none,
    stScroll := (0, 0), stLastFocus := none, stMode := none, stMovedNodes := none,
    stSelectedElement := none, stElementParent := none, stElementNextSibling := none,
    stElementPlaceholder := none, stPlaceholder := none, stPipWindowSet := false,
    reqWinClosed := none, hideHandler := false, resizeHandler := false,
    styleObserver := false, titleObserver := false, styleMirrorSet := false,
    elementResizeObserver := false, stCaptured := false, posts := [] }

/-- C5 counterexample: calling `restore` («close») when no session has
ever been open is not a no-op — it posts a fresh 'closed' state-change
notification (with null mode) and scrolls the window from the user's
(5, 7) back to the captured scroll position (0, 0). -/
theorem pip_c5_counterexample :
    (restoreRun "page-call" idleProbeState).1 = Except.ok () ∧
    (restoreRun "page-call" idleProbeState).2.winScrollX = 0 ∧
    idleProbeState.winScrollX = 5 ∧
    (restoreRun "page-call" idleProbeState).2.posts =
      [Msg.pipState "closed" "page-call" none] ∧
    idleProbeState.posts = [] :=
  ⟨rfl, rfl, rfl, rfl, rfl⟩

/-- C5 (amended): a close issued while a close-operation is in flight
returns that same in-flight result; a close when no session is open moves
no DOM nodes and leaves the controller idle with the floating-window slot
untouched, but it is not a strict no-op: it emits one more 'closed'
notification (with null mode) and scrolls the window to the captured
scroll position. -/
theorem pip_c5_close_idle_amended (c : Ctrl) (q : ℕ) (hq : c.restorePromise = some q)
    (t : String) (s : MState) (hm : s.stMode = none) (hw : s.stPipWindowSet = false)
    (hf : s.stLastFocus = none) :
    restoreEnter c = (c, q) ∧
    (restoreRun t s).1 = Except.ok () ∧
    (restoreRun t s).2.dom = s.dom ∧
    (restoreRun t s).2.posts = s.posts ++ [Msg.pipState "closed" t none] ∧
    (restoreRun t s).2.winScrollX = s.stScroll.1 ∧
    (restoreRun t s).2.winScrollY = s.stScroll.2 ∧
    (restoreRun t s).2.stMode = none ∧
    (restoreRun t s).2.reqWinClosed = s.reqWinClosed := by
  have hre : restoreEnter c = (c, q) := by unfold restoreEnter; rw [hq]
  refine ⟨hre, ?_⟩
  unfold restoreRun
  simp [cleanupObserversM, hm, hw, hf]

/-- Witness for `pip_c5_close_idle_amended` at a controller with a close
in flight and the freshly booted machine state. -/
theorem pip_c5_close_idle_amended_witness :
    restoreEnter ⟨none, some 3, false, 0, 4⟩ = (⟨none, some 3, false, 0, 4⟩, 3) ∧
    (restoreRun "x" idleProbeState).2.posts = [Msg.pipState "closed" "x" none] := by
  have h := pip_c5_close_idle_amended ⟨none, some 3, false, 0, 4⟩ 3 rfl "x"
    idleProbeState rfl rfl rfl
  exact ⟨h.1, h.2.2.2.1⟩

/-- An active Element Selection Mode session with no notifications yet. -/
def activeSelState : SelState :=
  { selActive := true, overlayConnected := true, cursorCrosshair := true, posts := [] }

/-- C8 counterexample: picking an element that became detached between
highlight and confirm does NOT abort with an "empty selection" cause — the
only idle notification emitted carries the reason `selected` (posted
synchronously before the microtask), and the deferred microtask then
aborts silently without opening. -/
theorem pip_c8_counterexample :
    (finishElementSelection (Target.elem 42) activeSelState).1.posts =
      [Msg.pipSelection "idle" (some "selected")] ∧
    Msg.pipSelection "idle" (some "empty") ∉
      (finishElementSelection (Target.elem 42) activeSelState).1.posts ∧
    runDeferredOpen (⟨[(docRootId, [bodyId]), (bodyId, [])]⟩ : Dom)
      (finishElementSelection (Target.elem 42) activeSelState).2 = none := by
  refine ⟨rfl, ?_, rfl⟩
  decide

/-- C8 (amended): after a pick the overlay is torn down synchronously and
the open request is carried to the next microtask as a deferred payload;
an idle notification with the cause is emitted on every cancel or pick; a
pick with no Element target aborts with the `empty` cause; a picked
element that became detached before the microtask runs aborts silently —
no open is attempted and the idle notification already emitted carries
the `selected` cause. -/
theorem pip_c8_selection_amended (s : SelState) (hs : s.selActive = true)
    (d : Dom) (t : Target) :
    ((finishElementSelection t s).1.selActive = false ∧
     (finishElementSelection t s).1.overlayConnected = false) ∧
    (∀ r, (cancelElementSelectionM r s).posts =
       s.posts ++ [Msg.pipSelection "idle" (some r)]) ∧
    (∀ i, t = Target.missing ∨ t = Target.nonElement i →
       (finishElementSelection t s).1.posts =
         s.posts ++ [Msg.pipSelection "idle" (some "empty")] ∧
       (finishElementSelection t s).2 = none) ∧
    (∀ e, t = Target.elem e →
       (finishElementSelection t s).1.posts =
         s.posts ++ [Msg.pipSelection "idle" (some "selected")] ∧
       (finishElementSelection t s).2 = some e ∧
       (isConnected d e = false →
          runDeferredOpen d (finishElementSelection t s).2 = none) ∧
       (isConnected d e = true →
          runDeferredOpen d (finishElementSelection t s).2 = some e)) := by
  refine ⟨?_, ?_, ?_, ?_⟩
  · cases t <;> simp [finishElementSelection, cancelElementSelectionM, hs]
  · intro r
    simp [cancelElementSelectionM, hs]
  · intro i hti
    rcases hti with h | h <;> subst h <;>
      simp [finishElementSelection, cancelElementSelectionM, hs]
  · intro e hte
    subst hte
    refine ⟨by simp [finishElementSelection, cancelElementSelectionM, hs], rfl, ?_, ?_⟩
    · intro hd
      simp [finishElementSelection, runDeferredOpen, hd]
    · intro hd
      simp [finishElementSelection, runDeferredOpen, hd]

/-- Witness for `pip_c8_selection_amended`: a pick of the connected
element 1 (the body's child) from an active selection session. -/
theorem pip_c8_selection_amended_witness :
    (finishElementSelection (Target.elem bodyId) activeSelState).1.selActive = false ∧
    (finishElementSelection (Target.elem bodyId) activeSelState).1.posts =
      [Msg.pipSelection "idle" (some "selected")] ∧
    runDeferredOpen (⟨[(docRootId, [bodyId]), (bodyId, [])]⟩ : Dom)
      (finishElementSelection (Target.elem bodyId) activeSelState).2 = some bodyId := by
  have h := pip_c8_selection_amended activeSelState rfl
    (⟨[(docRootId, [bodyId]), (bodyId, [])]⟩ : Dom) (Target.elem bodyId)
  refine ⟨h.1.1, ?_, ?_⟩
  · exact (h.2.2.2 bodyId rfl).1
  · exact (h.2.2.2 bodyId rfl).2.2.2 (by decide)

/-- The clone update performed by the attribute branch of the mirror
callback (pip-main.js:1120-1127): copy the target's current value, or
remove the attribute when it is absent. -/
def cloneAttrSync (target : SNode) (name : String) (c : SNode) : SNode :=
  match getAttrN target name with
  | none => removeAttrN c name
  | some v => setAttrN c name v

theorem find?_id_filter_ne (l : List (ℕ × ℕ)) (i : ℕ) :
    (l.filter (fun e => e.1 != i)).find? (fun e => e.1 == i) = none := by
  apply List.find?_eq_none.mpr
  intro x hx
  have hpx := List.of_mem_filter hx
  simpa using hpx

theorem find?_attrs_filter_ne (attrs : List (String × String)) (name : String) :
    (attrs.filter (fun a => a.1 != name)).find? (fun a => a.1 == name) = none := by
  apply List.find?_eq_none.mpr
  intro x hx
  have hpx := List.of_mem_filter hx
  simpa using hpx

theorem getAttrN_setAttrN (c : SNode) (name v : String) :
    getAttrN (setAttrN c name v) name = some v := by
  unfold getAttrN setAttrN
  simp only
  rw [List.find?_append, find?_attrs_filter_ne]
  simp [List.find?]

theorem getAttrN_removeAttrN (c : SNode) (name : String) :
    getAttrN (removeAttrN c name) name = none := by
  unfold getAttrN removeAttrN
  simp only
  rw [find?_attrs_filter_ne]
  rfl

/-- A registered source style element carrying a non-`true` exempt marker
value. -/
def mirrorProbeSrc : SNode :=
  ⟨1, true, "STYLE", [("media", "screen"), ("data-pipx-no-mirror", "false")], "css"⟩

/-- Its registered clone (cloned before the marker attribute appeared). -/
def mirrorProbeClone : SNode := ⟨2, true, "STYLE", [("media", "screen")], "css"⟩

/-- A mirror with the single registration source 1 ↦ clone 2. -/
def mirrorProbeState : MirrorState := ⟨[(1, 2)], [mirrorProbeClone], 3⟩

/-- C6 counterexample: a mutation of the exempt-marker attribute on a
registered, non-exempt node is NOT propagated to its clone — the
`observe` options list only `media`/`disabled`/`href`/`crossorigin`, so
the record is never delivered and the mirror state is unchanged (the
clone still lacks the attribute the claim says is copied). -/
theorem pip_c6_counterexample :
    deliverable (MRec.attrChanged mirrorProbeSrc "data-pipx-no-mirror") = false ∧
    observerFlush mirrorProbeState
      [MRec.attrChanged mirrorProbeSrc "data-pipx-no-mirror"] = mirrorProbeState ∧
    getAttrN mirrorProbeSrc "data-pipx-no-mirror" = some "false" ∧
    isMirrorExempt mirrorProbeSrc = false ∧
    mirrorLookup mirrorProbeState 1 = some 2 ∧
    getAttrN mirrorProbeClone "data-pipx-no-mirror" = none :=
  ⟨rfl, rfl, rfl, rfl, rfl, rfl⟩

/-- C6 (amended): for the lifetime of a session the mirror maintains: a
style-bearing node inserted into the source head is cloned into the
floating surface and registered unless it carries the mirror-exempt
marker, in which case it is never cloned; a removed source node with a
registered clone has its clone destroyed and deregistered; and a
mutation of the `media`, `disabled`, `href` or `crossorigin` attribute on
a registered non-exempt node is propagated to its clone (the value
copied, or the attribute removed when absent), while exempt-marked
targets are skipped; mutations of the exempt-marker attribute itself are
not observed and not propagated. -/
theorem pip_c6_mirror_amended (st : MirrorState) (n : SNode) (i cid : ℕ)
    (target : SNode) (name : String) :
    (shouldMirror n = true → mirrorLookup st n.id = none →
       observerFlush st [MRec.childAdded n] = cloneInto st n ∧
       mirrorLookup (cloneInto st n) n.id = some st.nextCloneId ∧
       (cloneInto st n).pipHead = st.pipHead ++ [{ n with id := st.nextCloneId }]) ∧
    (isMirrorExempt n = true → observerFlush st [MRec.childAdded n] = st) ∧
    (mirrorLookup st i = some cid →
       (observerFlush st [MRec.childRemoved i]).pipHead =
         st.pipHead.filter (fun c => c.id != cid) ∧
       mirrorLookup (observerFlush st [MRec.childRemoved i]) i = none) ∧
    (deliverable (MRec.attrChanged target name) = true →
     isMirrorExempt target = false → mirrorLookup st target.id = some cid →
       (observerFlush st [MRec.attrChanged target name]).pipHead =
         st.pipHead.map (fun c => if c.id = cid then cloneAttrSync target name c else c) ∧
       (∀ c, getAttrN (cloneAttrSync target name c) name = getAttrN target name)) ∧
    (isMirrorExempt target = true →
       observerFlush st [MRec.attrChanged target name] = st) ∧
    (deliverable (MRec.attrChanged target "data-pipx-no-mirror") = false) := by
  refine ⟨?_, ?_, ?_, ?_, ?_, by simp [deliverable]⟩
  · intro hsm hlk
    have hnone : (mirrorLookup st n.id).isNone = true := by rw [hlk]; rfl
    refine ⟨?_, ?_, rfl⟩
    · simp [observerFlush, deliverable, processMutation, hsm, hnone]
    · unfold mirrorLookup at hlk ⊢
      unfold cloneInto
      simp only
      rw [List.find?_append]
      have hfn : st.map.find? (fun e => e.1 == n.id) = none := by
        cases hf : st.map.find? (fun e => e.1 == n.id) with
        | none => rfl
        | some e => rw [hf] at hlk; simp at hlk
      rw [hfn]
      simp [List.find?]
  · intro hex
    have hsm : shouldMirror n = false := by simp [shouldMirror, hex]
    simp [observerFlush, deliverable, processMutation, hsm]
  · intro hreg
    constructor
    · simp [observerFlush, deliverable, processMutation, hreg]
    · have hres : (observerFlush st [MRec.childRemoved i]).map =
          st.map.filter (fun e => e.1 != i) := by
        simp [observerFlush, deliverable, processMutation, hreg]
      unfold mirrorLookup
      rw [hres, find?_id_filter_ne]
      rfl
  · intro hdel hex hreg
    constructor
    · cases hattr : getAttrN target name with
      | none =>
        simp [observerFlush, deliverable] at hdel
        simp [observerFlush, deliverable, hdel, processMutation, hex, hreg, hattr,
              updateClone, cloneAttrSync]
      | some v =>
        simp [observerFlush, deliverable] at hdel
        simp [observerFlush, deliverable, hdel, processMutation, hex, hreg, hattr,
              updateClone, cloneAttrSync]
    · intro c
      unfold cloneAttrSync
      cases hattr : getAttrN target name with
      | none => simp [getAttrN_removeAttrN]
      | some v => simp [getAttrN_setAttrN]
  · intro hex
    by_cases hdel : deliverable (MRec.attrChanged target name) = true
    · simp [observerFlush, hdel, processMutation, hex]
    · simp only [Bool.not_eq_true] at hdel
      simp [observerFlush, List.filter, hdel]

/-- Witness for `pip_c6_mirror_amended`: a fresh style node is cloned and
registered; removing the probe registration destroys the clone; a `media`
mutation on the probe source is synchronized onto the clone. -/
theorem pip_c6_mirror_amended_witness :
    observerFlush mirrorProbeState
        [MRec.childAdded ⟨7, true, "STYLE", [], "more"⟩] =
      cloneInto mirrorProbeState ⟨7, true, "STYLE", [], "more"⟩ ∧
    mirrorLookup (observerFlush mirrorProbeState [MRec.childRemoved 1]) 1 = none ∧
    (∀ c, getAttrN (cloneAttrSync mirrorProbeSrc "media" c) "media" =
       getAttrN mirrorProbeSrc "media") := by
  have h := pip_c6_mirror_amended mirrorProbeState ⟨7, true, "STYLE", [], "more"⟩
    1 2 mirrorProbeSrc "media"
  exact ⟨(h.1 rfl rfl).1, (h.2.2.1 rfl).2, (h.2.2.2.1 rfl rfl rfl).2⟩

/-- An idle page whose body holds the top-level nodes `ns`, scrolled to
`(sx, sy)`, with `af` focused. -/
def pageStartState (ns : List NodeId) (sx sy : ℤ) (af : Option NodeId) : MState :=
  { dom := ⟨[(docRootId, [bodyId]), (bodyId, ns), (fragId, []), (pipBodyId, [])]⟩,
    bodyPresent := true, pipxActive := false, pipxState := none,
    winScrollX := sx, winScrollY := sy, activeElement := af,
    stScroll := (0, 0), stLastFocus := none, stMode := none, stMovedNodes := none,
    stSelectedElement := none, stElementParent := none, stElementNextSibling := none,
    stElementPlaceholder := none, stPlaceholder := none, stPipWindowSet := false,
    reqWinClosed := none, hideHandler := false, resizeHandler := false,
    styleObserver := false, titleObserver := false, styleMirrorSet := false,
    elementResizeObserver := false, stCaptured := false, posts := [] }

/-- The state reached by a successful page-mode open from
`pageStartState`: content moved into the PiP body, placeholder `ph` in the
page body, markers set, mirrors and handlers installed, scroll and focus
captured. -/
def openedPageState (ns : List NodeId) (ph : NodeId) (sx sy : ℤ) (af : Option NodeId)
    (t : String) : MState :=
  { dom := ⟨[(docRootId, [bodyId]), (bodyId, [ph]), (fragId, []), (pipBodyId, ns)]⟩,
    bodyPresent := true, pipxActive := true, pipxState := some "placeholder",
    winScrollX := sx, winScrollY := sy, activeElement := af,
    stScroll := (sx, sy),
    stLastFocus := match af with
      | none => none
      | some a => if a = bodyId then none else some a,
    stMode := some "page", stMovedNodes := some ns,
    stSelectedElement := none, stElementParent := none, stElementNextSibling := none,
    stElementPlaceholder := none, stPlaceholder := some ph, stPipWindowSet := true,
    reqWinClosed := some false, hideHandler := true, resizeHandler := true,
    styleObserver := true, titleObserver := true, styleMirrorSet := true,
    elementResizeObserver := false, stCaptured := true,
    posts := [Msg.pipState "open" t (some "page")] }

/-- C4: a successful page-mode open followed by a close restores the
body's top-level child list exactly (same nodes, same order), restores
the window scroll captured at open, and refocuses the element focused at
open when it was one of the moved nodes (hence still attached); the
open/closed notifications are each emitted once. -/
theorem pip_c4_page_roundtrip (ns : List NodeId) (ph : NodeId) (sx sy sx2 sy2 : ℤ)
    (af : Option NodeId) (t1 t2 : String)
    (hnd : ns.Nodup) (h1ns : bodyId ∉ ns) (hphns : ph ∉ ns)
    (hph0 : ph ≠ docRootId) (hph1 : ph ≠ bodyId)
    (haf : af = none ∨ ∃ f, af = some f ∧ f ∈ ns) :
    openPipPage ph FailPoint.noFail false t1 (pageStartState ns sx sy af) =
      (Except.ok (), openedPageState ns ph sx sy af t1) ∧
    domGet (openedPageState ns ph sx sy af t1).dom bodyId = [ph] ∧
    domGet (openedPageState ns ph sx sy af t1).dom pipBodyId = ns ∧
    (restoreRun t2 { openedPageState ns ph sx sy af t1 with
        winScrollX := sx2, winScrollY := sy2 }).1 = Except.ok () ∧
    (restoreRun t2 { openedPageState ns ph sx sy af t1 with
        winScrollX := sx2, winScrollY := sy2 }).2.dom =
      (pageStartState ns sx sy af).dom ∧
    (restoreRun t2 { openedPageState ns ph sx sy af t1 with
        winScrollX := sx2, winScrollY := sy2 }).2.winScrollX = sx ∧
    (restoreRun t2 { openedPageState ns ph sx sy af t1 with
        winScrollX := sx2, winScrollY := sy2 }).2.winScrollY = sy ∧
    (∀ f, af = some f → f ∈ ns →
       (restoreRun t2 { openedPageState ns ph sx sy af t1 with
           winScrollX := sx2, winScrollY := sy2 }).2.activeElement = some f) ∧
    (restoreRun t2 { openedPageState ns ph sx sy af t1 with
        winScrollX := sx2, winScrollY := sy2 }).2.posts =
      [Msg.pipState "open" t1 (some "page"), Msg.pipState "closed" t2 (some "page")] := by
  have hph0n : ph ≠ 0 := hph0
  have hph1n : ph ≠ 1 := hph1
  have hb1 : ((1 : NodeId) != ph) = true := by
    rw [bne_iff_ne]; exact Ne.symm hph1n
  have hfilns : ns.filter (fun c => c != ph) = ns := filter_ne_eq_self hphns
  have hopen : openPipPage ph FailPoint.noFail false t1 (pageStartState ns sx sy af) =
      (Except.ok (), openedPageState ns ph sx sy af t1) := by
    simp [openPipPage, pageStartState, openedPageState, detachBodyContent,
          appendFragmentTo, domAppend, domErase, domSetChildren, domGet, domGetL,
          getActiveFocusableElement, docRootId, bodyId, fragId, pipBodyId,
          hb1, hfilns, List.filter]
  have hfold := foldAppend_skeleton4 ns [bodyId] [ph] [] ns hnd
  have hra : removeAll [bodyId] ns = [bodyId] := removeAll_singleton_not_mem h1ns
  have hrp : removeAll [ph] ns = [ph] := removeAll_singleton_not_mem hphns
  have hre : removeAll ([] : List NodeId) ns = [] := rfl
  have hrs : removeAll ns ns = [] := removeAll_self_nil ns
  have hconn : isConnected
      (⟨[(docRootId, [bodyId]), (bodyId, ph :: ns), (fragId, []), (pipBodyId, [])]⟩ : Dom)
      ph = true := by
    simp [isConnected, connectedFuel, parentOf, parentOfL, docRootId, bodyId,
          fragId, pipBodyId, hph0n, hph1n]
  have hbranch : restorePageBranch { openedPageState ns ph sx sy af t1 with
      winScrollX := sx2, winScrollY := sy2, elementResizeObserver := false } =
      { openedPageState ns ph sx sy af t1 with
        winScrollX := sx2, winScrollY := sy2, elementResizeObserver := false,
        dom := (pageStartState ns sx sy af).dom, stMovedNodes := none } := by
    simp only [restorePageBranch, openedPageState, pageStartState]
    simp only [Option.getD]
    rw [hfold, hra, hrp, hre, hrs]
    simp only [List.singleton_append]
    rw [if_pos hconn]
    simp [domRemove, domErase, List.filter, bne_self_eq_false, hfilns, hb1,
          docRootId, bodyId, fragId, pipBodyId]
  refine ⟨hopen, rfl, by simp [openedPageState, domGet, domGetL, pipBodyId,
    docRootId, bodyId, fragId], ?_⟩
  have hrun : ∀ goalP : MState → Prop, True := fun _ => trivial
  rcases haf with haf | ⟨f, haf, hfns⟩
  · subst haf
    have hrest : restoreRun t2 { openedPageState ns ph sx sy none t1 with
        winScrollX := sx2, winScrollY := sy2 } =
        (Except.ok (), { openedPageState ns ph sx sy none t1 with
          winScrollX := sx, winScrollY := sy, elementResizeObserver := false,
          dom := (pageStartState ns sx sy none).dom, stMovedNodes := none,
          pipxState := none, pipxActive := false,
          styleObserver := false, titleObserver := false, styleMirrorSet := false,
          reqWinClosed := some true, stPipWindowSet := false,
          hideHandler := false, resizeHandler := false,
          stLastFocus := none, stCaptured := false, stMode := none,
          posts := [Msg.pipState "open" t1 (some "page"),
                    Msg.pipState "closed" t2 (some "page")] }) := by
      simp only [restoreRun]
      rw [hbranch]
      simp [openedPageState, cleanupObserversM]
    rw [hrest]
    refine ⟨rfl, rfl, rfl, rfl, ?_, rfl⟩
    intro f hf
    exact absurd hf (by simp)
  · subst haf
    have hf1 : f ≠ bodyId := fun h => h1ns (h ▸ hfns)
    have hf1n : f ≠ 1 := hf1
    have hcont : containsNode
        (⟨[(docRootId, [bodyId]), (bodyId, ns), (fragId, []), (pipBodyId, [])]⟩ : Dom)
        bodyId f = true := by
      simp [containsNode, inSubtreeFuel, parentOf, parentOfL,
            docRootId, bodyId, fragId, pipBodyId, hf1n, hfns]
    have hrest : restoreRun t2 { openedPageState ns ph sx sy (some f) t1 with
        winScrollX := sx2, winScrollY := sy2 } =
        (Except.ok (), { openedPageState ns ph sx sy (some f) t1 with
          winScrollX := sx, winScrollY := sy, elementResizeObserver := false,
          dom := (pageStartState ns sx sy (some f)).dom, stMovedNodes := none,
          pipxState := none, pipxActive := false,
          styleObserver := false, titleObserver := false, styleMirrorSet := false,
          reqWinClosed := some true, stPipWindowSet := false,
          hideHandler := false, resizeHandler := false,
          activeElement := some f,
          stLastFocus := none, stCaptured := false, stMode := none,
          posts := [Msg.pipState "open" t1 (some "page"),
                    Msg.pipState "closed" t2 (some "page")] }) := by
      simp only [restoreRun]
      rw [hbranch]
      simp [openedPageState, pageStartState, cleanupObserversM, hf1, hf1n, hcont]
    rw [hrest]
    refine ⟨rfl, rfl, rfl, rfl, ?_, rfl⟩
    intro g hg _
    have : g = f := by injection hg.symm
    rw [this]

/-- Witness for `pip_c4_page_roundtrip` on a three-node body with focus
on node 11. -/
theorem pip_c4_page_roundtrip_witness :
    openPipPage 50 FailPoint.noFail false "a" (pageStartState [10, 11, 12] 3 4 (some 11)) =
      (Except.ok (), openedPageState [10, 11, 12] 50 3 4 (some 11) "a") ∧
    (restoreRun "b" { openedPageState [10, 11, 12] 50 3 4 (some 11) "a" with
        winScrollX := 8, winScrollY := 9 }).2.dom =
      (pageStartState [10, 11, 12] 3 4 (some 11)).dom ∧
    (restoreRun "b" { openedPageState [10, 11, 12] 50 3 4 (some 11) "a" with
        winScrollX := 8, winScrollY := 9 }).2.winScrollX = 3 ∧
    (restoreRun "b" { openedPageState [10, 11, 12] 50 3 4 (some 11) "a" with
        winScrollX := 8, winScrollY := 9 }).2.activeElement = some 11 := by
  have h := pip_c4_page_roundtrip [10, 11, 12] 50 3 4 8 9 (some 11) "a" "b"
    (by decide) (by decide) (by decide) (by decide) (by decide)
    (Or.inr ⟨11, rfl, by decide⟩)
  exact ⟨h.1, h.2.2.2.2.1, h.2.2.2.2.2.1, h.2.2.2.2.2.2.2.1 11 rfl (by decide)⟩

theorem openCatch_element_clean (s : MState) (cf : Bool) (err : String)
    (h1 : s.stSelectedElement = none) (h2 : s.stElementPlaceholder = none)
    (h3 : s.stElementParent = none) (h4 : s.stElementNextSibling = none) :
    openCatch "element" none cf err s =
      (Except.error err,
       { s with pipxActive := false, pipxState := none,
                elementResizeObserver := false, styleObserver := false,
                titleObserver := false, styleMirrorSet := false,
                reqWinClosed := s.reqWinClosed.map (fun _ => true),
                stMode := none }) := by
  cases cf <;> simp [openCatch, cleanupObserversM, h1, h2, h3, h4]

/-- C7: an element-mode open whose target is absent, not an Element, not
attached, or (attached but) without a parent node fails with the
invalid-target error, and the document is untouched: no placeholder, no
node movement, no marker attribute — the final DOM equals the initial
one, and the no-parent check in `detachElement` precedes the placeholder
creation and insertion (it errors without producing any new forest). -/
theorem pip_c7_invalid_target (s : MState) (hbody : s.bodyPresent = true)
    (ph : NodeId) (fail : FailPoint) (cf : Bool) (t : String) (target : Target) :
    (∀ d e, parentOf d e = none →
       detachElementM d ph e fail =
         Except.error "Selected element has no parent node") ∧
    ((target = Target.missing ∨ (∃ i, target = Target.nonElement i) ∨
      (∃ e, target = Target.elem e ∧ isConnected s.dom e = false)) →
       (openPipElement target ph fail cf t s).1 =
         Except.error "Selected element is not available in the document" ∧
       (openPipElement target ph fail cf t s).2.dom = s.dom ∧
       (openPipElement target ph fail cf t s).2.stMode = none ∧
       (openPipElement target ph fail cf t s).2.reqWinClosed = some true ∧
       (openPipElement target ph fail cf t s).2.pipxActive = false ∧
       (openPipElement target ph fail cf t s).2.pipxState = none ∧
       (openPipElement target ph fail cf t s).2.posts = s.posts) ∧
    (∀ e, target = Target.elem e → isConnected s.dom e = true →
       parentOf s.dom e = none →
       (openPipElement target ph fail cf t s).1 =
         Except.error "Selected element has no parent node" ∧
       (openPipElement target ph fail cf t s).2.dom = s.dom ∧
       (openPipElement target ph fail cf t s).2.stMode = none ∧
       (openPipElement target ph fail cf t s).2.reqWinClosed = some true) := by
  refine ⟨?_, ?_, ?_⟩
  · intro d e hpar
    unfold detachElementM
    rw [hpar]
  · intro hinv
    rcases hinv with h | ⟨i, h⟩ | ⟨e, h, hc⟩ <;> subst h
    · rw [show openPipElement Target.missing ph fail cf t s =
          openCatch "element" none cf
            "Selected element is not available in the document"
            { s with elementResizeObserver := false, reqWinClosed := some false,
                     stCaptured := true, stMode := some "element",
                     stMovedNodes := none, stSelectedElement := none,
                     stElementParent := none, stElementNextSibling := none,
                     stElementPlaceholder := none, stPlaceholder := none }
          from by simp [openPipElement, hbody]]
      rw [openCatch_element_clean _ _ _ rfl rfl rfl rfl]
      simp
    · rw [show openPipElement (Target.nonElement i) ph fail cf t s =
          openCatch "element" none cf
            "Selected element is not available in the document"
            { s with elementResizeObserver := false, reqWinClosed := some false,
                     stCaptured := true, stMode := some "element",
                     stMovedNodes := none, stSelectedElement := none,
                     stElementParent := none, stElementNextSibling := none,
                     stElementPlaceholder := none, stPlaceholder := none }
          from by simp [openPipElement, hbody]]
      rw [openCatch_element_clean _ _ _ rfl rfl rfl rfl]
      simp
    · rw [show openPipElement (Target.elem e) ph fail cf t s =
          openCatch "element" none cf
            "Selected element is not available in the document"
            { s with elementResizeObserver := false, reqWinClosed := some false,
                     stCaptured := true, stMode := some "element",
                     stMovedNodes := none, stSelectedElement := none,
                     stElementParent := none, stElementNextSibling := none,
                     stElementPlaceholder := none, stPlaceholder := none }
          from by simp [openPipElement, hbody, hc]]
      rw [openCatch_element_clean _ _ _ rfl rfl rfl rfl]
      simp
  · intro e het hc hpar
    subst het
    rw [show openPipElement (Target.elem e) ph fail cf t s =
        openCatch "element" none cf "Selected element has no parent node"
          { s with elementResizeObserver := false, reqWinClosed := some false,
                   stCaptured := true, stMode := some "element",
                   stMovedNodes := none, stSelectedElement := none,
                   stElementParent := none, stElementNextSibling := none,
                   stElementPlaceholder := none, stPlaceholder := none }
        from by simp [openPipElement, hbody, hc, detachElementM, hpar]]
    rw [openCatch_element_clean _ _ _ rfl rfl rfl rfl]
    simp

/-- Witness for `pip_c7_invalid_target`: a detached element 42 in the
fresh idle state, and the parentless root as target. -/
theorem pip_c7_invalid_target_witness :
    (openPipElement (Target.elem 42) 50 FailPoint.noFail false "x" idleProbeState).1 =
      Except.error "Selected element is not available in the document" ∧
    (openPipElement (Target.elem 42) 50 FailPoint.noFail false "x" idleProbeState).2.dom =
      idleProbeState.dom ∧
    (openPipElement (Target.elem docRootId) 50 FailPoint.noFail false "x"
        idleProbeState).1 = Except.error "Selected element has no parent node" := by
  have h := pip_c7_invalid_target idleProbeState rfl 50 FailPoint.noFail false "x"
    (Target.elem 42)
  have h0 := pip_c7_invalid_target idleProbeState rfl 50 FailPoint.noFail false "x"
    (Target.elem docRootId)
  have hinv := h.2.1 (Or.inr (Or.inr ⟨42, rfl, by decide⟩))
  exact ⟨hinv.1, hinv.2.1, (h0.2.2 docRootId rfl (by decide) (by decide)).1⟩

/-- An idle page for element mode: the body holds the parent node `2`,
whose children are `l1 ++ e :: l2` — `e` is the element to be detached. -/
def elementStartState (l1 l2 : List NodeId) (e : NodeId) : MState :=
  { dom := ⟨[(docRootId, [bodyId]), (bodyId, [2]), (2, l1 ++ e :: l2),
             (fragId, []), (pipBodyId, [])]⟩,
    bodyPresent := true, pipxActive := false, pipxState := none,
    winScrollX := 0, winScrollY := 0, activeElement := none,
    stScroll := (0, 0), stLastFocus := none, stMode := none, stMovedNodes := none,
    stSelectedElement := none, stElementParent := none, stElementNextSibling := none,
    stElementPlaceholder := none, stPlaceholder := none, stPipWindowSet := false,
    reqWinClosed := none, hideHandler := false, resizeHandler := false,
    styleObserver := false, titleObserver := false, styleMirrorSet := false,
    elementResizeObserver := false, stCaptured := false, posts := [] }

/-- C2 counterexample: when the document body is missing, the open
sequence does NOT re-raise any error — the open promise resolves
successfully after closing the freshly acquired window and posting an
unsupported notification; the claim's list of failing steps includes
"missing body" and asserts the original error is re-raised to the
caller. -/
theorem pip_c2_counterexample :
    (openPipPage 50 FailPoint.noFail false "x"
       { pageStartState [] 0 0 none with bodyPresent := false }).1 = Except.ok () ∧
    (openPipPage 50 FailPoint.noFail false "x"
       { pageStartState [] 0 0 none with bodyPresent := false }).2.reqWinClosed =
      some true ∧
    (openPipPage 50 FailPoint.noFail false "x"
       { pageStartState [] 0 0 none with bodyPresent := false }).2.dom =
      (pageStartState [] 0 0 none).dom ∧
    (openPipPage 50 FailPoint.noFail false "x"
       { pageStartState [] 0 0 none with bodyPresent := false }).2.posts =
      [Msg.pipUnsupported "body-missing"] :=
  ⟨rfl, rfl, rfl, rfl⟩

/-- C2 (amended): when a step of the open sequence fails after mutation
has begun (placeholder insertion failure or floating-window preparation
failure, in either mode), every already-completed step is reversed —
moved nodes are reinserted, the placeholder is removed, the marker
attributes are cleared, observers are disconnected, the partially
constructed floating window is closed — leaving zero net DOM difference
from the pre-open state, the controller idle, and the original error
re-raised; an error thrown during the cleanup itself never replaces the
original error; a missing body, however, raises nothing: the open
resolves successfully after closing the window (no mutation occurred). -/
theorem pip_c2_rollback_amended
    (ns l1 l2 : List NodeId) (e ph : NodeId) (t : String)
    (hnd : ns.Nodup) (h1ns : bodyId ∉ ns) (hphns : ph ∉ ns)
    (hph0 : ph ≠ 0) (hph1 : ph ≠ 1) (hph2 : ph ≠ 2)
    (he0 : e ≠ 0) (he1 : e ≠ 1) (he2 : e ≠ 2) (hep : e ≠ ph)
    (hel1 : e ∉ l1) (hel2 : e ∉ l2) (hpl1 : ph ∉ l1) (hpl2 : ph ∉ l2)
    (hhd : ∀ x, l2.head? = some x → x ∉ l1 ∧ x ≠ ph) :
    ((openPipPage ph FailPoint.placeholderIns false t (pageStartState ns 0 0 none)).1 =
       Except.error "placeholder-insert-failed" ∧
     (openPipPage ph FailPoint.placeholderIns false t (pageStartState ns 0 0 none)).2.dom =
       (pageStartState ns 0 0 none).dom ∧
     (openPipPage ph FailPoint.placeholderIns false t (pageStartState ns 0 0 none)).2.stMode =
       none ∧
     (openPipPage ph FailPoint.placeholderIns false t
        (pageStartState ns 0 0 none)).2.reqWinClosed = some true ∧
     (openPipPage ph FailPoint.placeholderIns false t
        (pageStartState ns 0 0 none)).2.styleObserver = false ∧
     (openPipPage ph FailPoint.placeholderIns false t
        (pageStartState ns 0 0 none)).2.pipxActive = false ∧
     (openPipPage ph FailPoint.placeholderIns false t
        (pageStartState ns 0 0 none)).2.pipxState = none) ∧
    ((openPipPage ph FailPoint.prepareWin false t (pageStartState ns 0 0 none)).1 =
       Except.error "prepare-failed" ∧
     (openPipPage ph FailPoint.prepareWin false t (pageStartState ns 0 0 none)).2.dom =
       (pageStartState ns 0 0 none).dom ∧
     (openPipPage ph FailPoint.prepareWin false t (pageStartState ns 0 0 none)).2.stMode =
       none ∧
     (openPipPage ph FailPoint.prepareWin false t
        (pageStartState ns 0 0 none)).2.reqWinClosed = some true ∧
     (openPipPage ph FailPoint.prepareWin false t
        (pageStartState ns 0 0 none)).2.styleObserver = false ∧
     (openPipPage ph FailPoint.prepareWin false t
        (pageStartState ns 0 0 none)).2.pipxActive = false) ∧
    ((openPipPage ph FailPoint.prepareWin true t (pageStartState ns 0 0 none)).1 =
       Except.error "prepare-failed") ∧
    ((openPipElement (Target.elem e) ph FailPoint.prepareWin false t
        (elementStartState l1 l2 e)).1 = Except.error "prepare-failed" ∧
     (openPipElement (Target.elem e) ph FailPoint.prepareWin false t
        (elementStartState l1 l2 e)).2.dom = (elementStartState l1 l2 e).dom ∧
     (openPipElement (Target.elem e) ph FailPoint.prepareWin false t
        (elementStartState l1 l2 e)).2.stMode = none ∧
     (openPipElement (Target.elem e) ph FailPoint.prepareWin false t
        (elementStartState l1 l2 e)).2.reqWinClosed = some true) ∧
    ((openPipElement (Target.elem e) ph FailPoint.placeholderIns false t
        (elementStartState l1 l2 e)).1 = Except.error "placeholder-insert-failed" ∧
     (openPipElement (Target.elem e) ph FailPoint.placeholderIns false t
        (elementStartState l1 l2 e)).2.dom = (elementStartState l1 l2 e).dom ∧
     (openPipElement (Target.elem e) ph FailPoint.placeholderIns false t
        (elementStartState l1 l2 e)).2.stMode = none ∧
     (openPipElement (Target.elem e) ph FailPoint.placeholderIns false t
        (elementStartState l1 l2 e)).2.reqWinClosed = some true) ∧
    (∀ s : MState, s.bodyPresent = false → ∀ fp cf,
       (openPipPage ph fp cf t s).1 = Except.ok () ∧
       (openPipPage ph fp cf t s).2.dom = s.dom ∧
       (openPipPage ph fp cf t s).2.reqWinClosed = some true ∧
       (openPipPage ph fp cf t s).2.posts =
         s.posts ++ [Msg.pipUnsupported "body-missing"]) := by
  have hb1 : ((1 : NodeId) != ph) = true := bne_of_ne (Ne.symm hph1)
  have hb2 : ((2 : NodeId) != ph) = true := bne_of_ne (Ne.symm hph2)
  have hfilns : ns.filter (fun c => c != ph) = ns := filter_ne_eq_self hphns
  have hnotin_ns : ¬ (ph ∈ ns) := hphns
  refine ⟨?_, ?_, ?_, ?_, ?_, ?_⟩
  · -- page mode, placeholder insertion fails
    have hfold := foldAppend_skeleton4 ns [bodyId] [] ns [] hnd
    have hra : removeAll [bodyId] ns = [bodyId] := removeAll_singleton_not_mem h1ns
    have hre : removeAll ([] : List NodeId) ns = [] := rfl
    have hrs : removeAll ns ns = [] := removeAll_self_nil ns
    have hnoconn : isConnected
        (⟨[(docRootId, [bodyId]), (bodyId, ns), (fragId, []), (pipBodyId, [])]⟩ : Dom)
        ph = false := by
      simp [isConnected, connectedFuel, parentOf, parentOfL, docRootId, bodyId,
            fragId, pipBodyId, hph0, hph1, hnotin_ns]
    have hrun : openPipPage ph FailPoint.placeholderIns false t
        (pageStartState ns 0 0 none) =
        openCatch "page" (some ph) false "placeholder-insert-failed"
          { pageStartState ns 0 0 none with
            dom := ⟨[(docRootId, [bodyId]), (bodyId, []), (fragId, ns), (pipBodyId, [])]⟩,
            elementResizeObserver := false, reqWinClosed := some false,
            stCaptured := true, stMode := some "page", stMovedNodes := some ns } := by
      simp [openPipPage, pageStartState, detachBodyContent, domSetChildren,
            domGet, domGetL, getActiveFocusableElement, docRootId, bodyId,
            fragId, pipBodyId]
    rw [hrun]
    simp only [openCatch]
    simp [hfold, hra, hre, hrs, hnoconn, cleanupObserversM, pageStartState]
  · -- page mode, preparePipWindow fails
    have hfold := foldAppend_skeleton4 ns [bodyId] [ph] ns [] hnd
    have hra : removeAll [bodyId] ns = [bodyId] := removeAll_singleton_not_mem h1ns
    have hrp : removeAll [ph] ns = [ph] := removeAll_singleton_not_mem hphns
    have hrs : removeAll ns ns = [] := removeAll_self_nil ns
    have hconn : isConnected
        (⟨[(docRootId, [bodyId]), (bodyId, ph :: ns), (fragId, []), (pipBodyId, [])]⟩ : Dom)
        ph = true := by
      simp [isConnected, connectedFuel, parentOf, parentOfL, docRootId, bodyId,
            fragId, pipBodyId, hph0, hph1]
    have hrun : openPipPage ph FailPoint.prepareWin false t
        (pageStartState ns 0 0 none) =
        openCatch "page" (some ph) false "prepare-failed"
          { pageStartState ns 0 0 none with
            dom := ⟨[(docRootId, [bodyId]), (bodyId, [ph]), (fragId, ns), (pipBodyId, [])]⟩,
            elementResizeObserver := false, reqWinClosed := some false,
            stCaptured := true, stMode := some "page", stMovedNodes := some ns,
            stPlaceholder := some ph, pipxActive := true,
            pipxState := some "placeholder",
            styleObserver := true, styleMirrorSet := true, titleObserver := true } := by
      simp [openPipPage, pageStartState, detachBodyContent, domAppend, domErase,
            domSetChildren, domGet, domGetL, getActiveFocusableElement, docRootId,
            bodyId, fragId, pipBodyId, hb1, hfilns, List.filter]
    rw [hrun]
    simp only [openCatch]
    simp only [cleanupObserversM]
    have hb1c : ((bodyId : NodeId) != ph) = true := hb1
    have hre : removeAll ([] : List NodeId) ns = [] := rfl
    simp [hfold, hra, hrp, hrs, hre, hconn, domRemove, domErase, List.filter,
          bne_self_eq_false, hfilns, hb1c, pageStartState]
  · -- cleanup failure never replaces the original error
    have hrun : openPipPage ph FailPoint.prepareWin true t
        (pageStartState ns 0 0 none) =
        openCatch "page" (some ph) true "prepare-failed"
          { pageStartState ns 0 0 none with
            dom := ⟨[(docRootId, [bodyId]), (bodyId, [ph]), (fragId, ns), (pipBodyId, [])]⟩,
            elementResizeObserver := false, reqWinClosed := some false,
            stCaptured := true, stMode := some "page", stMovedNodes := some ns,
            stPlaceholder := some ph, pipxActive := true,
            pipxState := some "placeholder",
            styleObserver := true, styleMirrorSet := true, titleObserver := true } := by
      simp [openPipPage, pageStartState, detachBodyContent, domAppend, domErase,
            domSetChildren, domGet, domGetL, getActiveFocusableElement, docRootId,
            bodyId, fragId, pipBodyId, hb1, hfilns, List.filter]
    rw [hrun]
    simp [openCatch]
  · -- element mode, preparePipWindow fails: detachment fully reversed
    have hbe1 : ((1 : NodeId) != e) = true := bne_of_ne (Ne.symm he1)
    have hbe2 : ((2 : NodeId) != e) = true := bne_of_ne (Ne.symm he2)
    have hbpe : (ph != e) = true := bne_of_ne (Ne.symm hep)
    have hfil_l : (l1 ++ e :: l2).filter (fun c => c != ph) = l1 ++ e :: l2 := by
      apply filter_ne_eq_self
      intro hmem
      rcases List.mem_append.mp hmem with hm | hm
      · exact hpl1 hm
      · rcases List.mem_cons.mp hm with hm | hm
        · exact hep hm.symm
        · exact hpl2 hm
    have hfil_e : (l1 ++ ph :: e :: l2).filter (fun c => c != e) = l1 ++ ph :: l2 := by
      rw [List.filter_append]
      rw [filter_ne_eq_self hel1]
      simp only [List.filter, hbpe, bne_self_eq_false]
      rw [filter_ne_eq_self hel2]
    have hins := insertBeforeList_append_not_mem l1 ph e l2 hel1
    have hnext := nextInList_append l1 ph e l2 hel1 hep
    have hconn_e : isConnected
        (⟨[(0, [1]), (1, [2]), (2, l1 ++ e :: l2), (98, []), (99, [])]⟩ : Dom)
        e = true := by
      simp [isConnected, connectedFuel, parentOf, parentOfL, docRootId, he0, he1, he2]
    have hrun : openPipElement (Target.elem e) ph FailPoint.prepareWin false t
        (elementStartState l1 l2 e) =
        openCatch "element" (some ph) false "prepare-failed"
          { elementStartState l1 l2 e with
            dom := ⟨[(docRootId, [bodyId]), (bodyId, [2]), (2, l1 ++ ph :: l2),
                     (fragId, [e]), (pipBodyId, [])]⟩,
            elementResizeObserver := false, reqWinClosed := some false,
            stCaptured := true, stMode := some "element",
            stSelectedElement := some e, stElementParent := some 2,
            stElementNextSibling := l2.head?, stElementPlaceholder := some ph,
            stPlaceholder := some ph, pipxActive := true,
            pipxState := some "element-placeholder",
            styleObserver := true, styleMirrorSet := true, titleObserver := true } := by
      simp [openPipElement, elementStartState, hconn_e, detachElementM, parentOf,
            parentOfL, domInsertBefore, domAppend, domErase, domSetChildren,
            domGet, domGetL, nextSiblingOf, docRootId, bodyId, fragId, pipBodyId,
            he0, he1, he2, hb1, hb2, hbe1, hbe2, hbpe, hfil_l, hfil_e, hins,
            hnext, List.filter]
    rw [hrun]
    -- now evaluate the catch-block rollback
    have hconn2 : isConnected
        (⟨[(0, [1]), (1, [2]), (2, l1 ++ ph :: l2), (98, [e]), (99, [])]⟩ : Dom)
        2 = true := by
      simp [isConnected, connectedFuel, parentOf, parentOfL, docRootId]
    cases hl2 : l2 with
    | nil =>
      subst hl2
      have hfil_ph : ((l1 ++ [ph]).filter (fun c => c != e)) = l1 ++ [ph] := by
        apply filter_ne_eq_self
        intro hmem
        rcases List.mem_append.mp hmem with hm | hm
        · exact hel1 hm
        · rw [List.mem_singleton] at hm; exact hep hm
      have hconn_ph : isConnected
          (⟨[(0, [1]), (1, [2]), (2, (l1 ++ [ph]) ++ [e]), (98, []), (99, [])]⟩ : Dom)
          ph = true := by
        simp [isConnected, connectedFuel, parentOf, parentOfL, docRootId,
              hph0, hph1, hph2]
      have hfil_back : (((l1 ++ [ph]) ++ [e]).filter (fun c => c != ph)) = l1 ++ [e] := by
        rw [List.filter_append, List.filter_append]
        rw [filter_ne_eq_self hpl1]
        simp [List.filter, bne_self_eq_false, bne_of_ne hep]
      simp only [openCatch, cleanupObserversM]
      simp only [Option.getD, List.head?]
      simp [hconn2, domInsertBefore, domAppend, domErase, domSetChildren, domGet,
            domGetL, docRootId, bodyId, fragId, pipBodyId, hconn_ph, hfil_ph,
            hfil_back, domRemove, elementStartState, List.filter, bne_self_eq_false,
            filter_ne_eq_self hel1, filter_ne_eq_self hpl1, bne_of_ne hep,
            bne_of_ne (Ne.symm hep), hbe1, hbe2, hb1, hb2, hph0, hph1, hph2,
            hpl1, hel1, isConnected, connectedFuel, parentOf, parentOfL]
    | cons hd tl =>
      subst hl2
      obtain ⟨hhd1, hhd2⟩ := hhd hd rfl
      have hptl : ph ∉ tl := fun hm => hpl2 (List.mem_cons_of_mem _ hm)
      have hfil_frag : ((l1 ++ ph :: hd :: tl).filter (fun c => c != e)) =
          l1 ++ ph :: hd :: tl := by
        apply filter_ne_eq_self
        intro hmem
        rcases List.mem_append.mp hmem with hm | hm
        · exact hel1 hm
        · rcases List.mem_cons.mp hm with hm | hm
          · exact hep hm
          · exact hel2 hm
      have hassoc : l1 ++ ph :: hd :: tl = (l1 ++ [ph]) ++ hd :: tl := by
        simp
      have hins2 : insertBeforeList ((l1 ++ [ph]) ++ hd :: tl) e hd =
          (l1 ++ [ph]) ++ e :: hd :: tl := by
        apply insertBeforeList_append_not_mem
        intro hm
        rcases List.mem_append.mp hm with hm1 | hm1
        · exact hhd1 hm1
        · rw [List.mem_singleton] at hm1; exact hhd2 hm1
      have hins2R : insertBeforeList (l1 ++ ph :: hd :: tl) e hd =
          l1 ++ ph :: e :: hd :: tl := by
        rw [hassoc, hins2]
        simp
      have hconn_ph2 : isConnected
          (⟨[(0, [1]), (1, [2]), (2, l1 ++ ph :: e :: hd :: tl),
             (98, []), (99, [])]⟩ : Dom) ph = true := by
        simp [isConnected, connectedFuel, parentOf, parentOfL, docRootId,
              hph0, hph1, hph2]
      have hfil_ph2 : ((l1 ++ ph :: e :: hd :: tl).filter (fun c => c != ph)) =
          l1 ++ e :: hd :: tl := by
        rw [List.filter_append, filter_ne_eq_self hpl1]
        simp [List.filter, bne_self_eq_false, bne_of_ne hep, bne_of_ne hhd2,
              filter_ne_eq_self hptl]
      simp only [openCatch, cleanupObserversM]
      simp only [Option.getD, List.head?]
      have hpe : ph ≠ e := Ne.symm hep
      have hphd : ph ≠ hd := Ne.symm hhd2
      simp [hconn2, domInsertBefore, domAppend, domErase, domSetChildren, domGet,
            domGetL, docRootId, bodyId, fragId, pipBodyId, hconn_ph2, hfil_frag,
            hins2R, hfil_ph2, domRemove, elementStartState, List.filter,
            bne_self_eq_false, filter_ne_eq_self hel1, filter_ne_eq_self hpl1,
            filter_ne_eq_self hptl, bne_of_ne hep, bne_of_ne (Ne.symm hep),
            bne_of_ne hhd2, hbe1, hbe2, hb1, hb2, hph0, hph1, hph2, hpl1, hel1,
            hptl, hhd1, hhd2, hpe, hphd,
            isConnected, connectedFuel, parentOf, parentOfL]
  · -- element mode, placeholder insertion fails: the failure precedes
    -- every DOM mutation, so the catch block finds nothing to undo
    have hconn_e : isConnected
        (⟨[(0, [1]), (1, [2]), (2, l1 ++ e :: l2), (98, []), (99, [])]⟩ : Dom)
        e = true := by
      simp [isConnected, connectedFuel, parentOf, parentOfL, docRootId, he0, he1, he2]
    rw [show openPipElement (Target.elem e) ph FailPoint.placeholderIns false t
        (elementStartState l1 l2 e) =
        openCatch "element" none false "placeholder-insert-failed"
          { elementStartState l1 l2 e with
            elementResizeObserver := false, reqWinClosed := some false,
            stCaptured := true, stMode := some "element",
            stMovedNodes := none, stSelectedElement := none,
            stElementParent := none, stElementNextSibling := none,
            stElementPlaceholder := none, stPlaceholder := none }
        from by simp [openPipElement, elementStartState, hconn_e, detachElementM,
                      parentOf, parentOfL, docRootId, bodyId, fragId, pipBodyId,
                      he0, he1, he2]]
    rw [openCatch_element_clean _ _ _ rfl rfl rfl rfl]
    simp [elementStartState]
  · -- missing body: resolves without error
    intro s hs fp cf
    simp [openPipPage, hs]

/-- Witness for `pip_c2_rollback_amended`: a two-node page body and a
one-sibling-each-side element scenario, both rolled back to the starting
DOM with the original error re-raised. -/
theorem pip_c2_rollback_amended_witness :
    (openPipPage 50 FailPoint.prepareWin false "t" (pageStartState [10, 11] 0 0 none)).1 =
      Except.error "prepare-failed" ∧
    (openPipPage 50 FailPoint.prepareWin false "t"
        (pageStartState [10, 11] 0 0 none)).2.dom =
      (pageStartState [10, 11] 0 0 none).dom ∧
    (openPipElement (Target.elem 30) 50 FailPoint.prepareWin false "t"
        (elementStartState [20] [21] 30)).1 = Except.error "prepare-failed" ∧
    (openPipElement (Target.elem 30) 50 FailPoint.prepareWin false "t"
        (elementStartState [20] [21] 30)).2.dom =
      (elementStartState [20] [21] 30).dom ∧
    (openPipElement (Target.elem 30) 50 FailPoint.placeholderIns false "t"
        (elementStartState [20] [21] 30)).1 =
      Except.error "placeholder-insert-failed" ∧
    (openPipElement (Target.elem 30) 50 FailPoint.placeholderIns false "t"
        (elementStartState [20] [21] 30)).2.dom =
      (elementStartState [20] [21] 30).dom := by
  have h := pip_c2_rollback_amended [10, 11] [20] [21] 30 50 "t"
    (by decide) (by decide) (by decide) (by decide) (by decide) (by decide)
    (by decide) (by decide) (by decide) (by decide) (by decide) (by decide)
    (by decide) (by decide)
    (by intro x hx
        have hx21 : (21 : NodeId) = x := by injection hx
        subst hx21
        exact ⟨by decide, by decide⟩)
  exact ⟨h.2.1.1, h.2.1.2.1, h.2.2.2.1.1, h.2.2.2.1.2.1,
         h.2.2.2.2.1.1, h.2.2.2.2.1.2.1⟩

/-- An open Element-mode session at close time: the element `e` lives in
the PiP body, the captured original parent is node `2`, with the given
captured next sibling and placeholder `ph`; `d` is the page forest at
close time. -/
def elemRestoreState (d : Dom) (e ph : NodeId) (nextSib : Option NodeId) : MState :=
  { dom := d, bodyPresent := true, pipxActive := true,
    pipxState := some "element-placeholder",
    winScrollX := 0, winScrollY := 0, activeElement := none,
    stScroll := (0, 0), stLastFocus := none, stMode := some "element",
    stMovedNodes := none, stSelectedElement := some e, stElementParent := some 2,
    stElementNextSibling := nextSib, stElementPlaceholder := some ph,
    stPlaceholder := some ph, stPipWindowSet := true, reqWinClosed := some false,
    hideHandler := true, resizeHandler := true, styleObserver := true,
    titleObserver := true, styleMirrorSet := true, elementResizeObserver := false,
    stCaptured := true, posts := [] }

/-- C3 counterexample: the placeholder 40 is still a child of the
captured original parent 2, but that parent sits inside a detached
holder 3 — the code appends the element 30 to the document body and
leaves the placeholder where it is, whereas the claim's first case
demands reinsertion immediately before the placeholder and the
placeholder's removal. -/
theorem pip_c3_counterexample :
    parentOf (elemRestoreState
        (⟨[(0, [1]), (1, []), (3, [2]), (2, [40]), (98, []), (99, [30])]⟩ : Dom)
        30 40 none).dom 40 = some 2 ∧
    (restoreRun "x" (elemRestoreState
        (⟨[(0, [1]), (1, []), (3, [2]), (2, [40]), (98, []), (99, [30])]⟩ : Dom)
        30 40 none)).1 = Except.ok () ∧
    domGet (restoreRun "x" (elemRestoreState
        (⟨[(0, [1]), (1, []), (3, [2]), (2, [40]), (98, []), (99, [30])]⟩ : Dom)
        30 40 none)).2.dom bodyId = [30] ∧
    domGet (restoreRun "x" (elemRestoreState
        (⟨[(0, [1]), (1, []), (3, [2]), (2, [40]), (98, []), (99, [30])]⟩ : Dom)
        30 40 none)).2.dom 2 = [40] :=
  ⟨rfl, rfl, rfl, rfl⟩

/-- C3 (amended): on close of an Element-mode session: if the original
parent is still connected and the placeholder is still its child, the
element is reinserted immediately before the placeholder and the
placeholder is removed; otherwise, if the parent is still connected, the
element is inserted before the captured next sibling (or at the end when
that sibling is null) and any still-connected placeholder is removed —
but when the captured next sibling is no longer a child of the parent
this insertion throws `NotFoundError` and the close aborts: no closed
notification is posted and the page containers are untouched, yet the
element — already adopted out of the floating surface by
`document.adoptNode` — is left attached to no surface; if the original
parent is no longer connected
(including when the placeholder is still inside it), the element is
appended to the document body.  Apart from the stale-next-sibling case,
reattachment does not throw. -/
theorem pip_c3_element_reattach_amended
    (l1 l2 l3 : List NodeId) (e ph r : NodeId) (nsb : Option NodeId) (t : String)
    (hpl1 : ph ∉ l1) (hpl2 : ph ∉ l2) (hpl3 : ph ∉ l3)
    (hel1 : e ∉ l1) (hel2 : e ∉ l2) (hel3 : e ∉ l3) (hrl3 : r ∉ l3)
    (hp0 : ph ≠ 0) (hp1 : ph ≠ 1) (hp2 : ph ≠ 2)
    (he1 : e ≠ 1) (he2 : e ≠ 2) (he3 : e ≠ 3)
    (hep : e ≠ ph) (her : e ≠ r) (hpr : ph ≠ r)
    (h3l3 : (3 : NodeId) ∉ l3) :
    -- (A) parent connected, placeholder still its child
    ((restoreRun t (elemRestoreState
        (⟨[(0, [1]), (1, [2]), (2, l1 ++ ph :: l2), (98, []), (99, [e])]⟩ : Dom)
        e ph nsb)).1 = Except.ok () ∧
     domGet (restoreRun t (elemRestoreState
        (⟨[(0, [1]), (1, [2]), (2, l1 ++ ph :: l2), (98, []), (99, [e])]⟩ : Dom)
        e ph nsb)).2.dom 2 = l1 ++ e :: l2) ∧
    -- (B1) placeholder moved to the body, null next sibling: append to the
    -- parent's end, remove the still-connected placeholder
    ((restoreRun t (elemRestoreState
        (⟨[(0, [1]), (1, [2, ph]), (2, l3), (98, []), (99, [e])]⟩ : Dom)
        e ph none)).1 = Except.ok () ∧
     domGet (restoreRun t (elemRestoreState
        (⟨[(0, [1]), (1, [2, ph]), (2, l3), (98, []), (99, [e])]⟩ : Dom)
        e ph none)).2.dom 2 = l3 ++ [e] ∧
     domGet (restoreRun t (elemRestoreState
        (⟨[(0, [1]), (1, [2, ph]), (2, l3), (98, []), (99, [e])]⟩ : Dom)
        e ph none)).2.dom bodyId = [2]) ∧
    -- (B2) placeholder gone, captured next sibling still a child
    ((restoreRun t (elemRestoreState
        (⟨[(0, [1]), (1, [2]), (2, l3 ++ [r]), (98, []), (99, [e])]⟩ : Dom)
        e ph (some r))).1 = Except.ok () ∧
     domGet (restoreRun t (elemRestoreState
        (⟨[(0, [1]), (1, [2]), (2, l3 ++ [r]), (98, []), (99, [e])]⟩ : Dom)
        e ph (some r))).2.dom 2 = l3 ++ e :: [r]) ∧
    -- (C) stale next sibling: NotFoundError, page containers untouched,
    -- element adopted out of the floating surface, no closed notification
    ((restoreRun t (elemRestoreState
        (⟨[(0, [1]), (1, [2, r]), (2, l3), (98, []), (99, [e])]⟩ : Dom)
        e ph (some r))).1 = Except.error "NotFoundError" ∧
     domGet (restoreRun t (elemRestoreState
        (⟨[(0, [1]), (1, [2, r]), (2, l3), (98, []), (99, [e])]⟩ : Dom)
        e ph (some r))).2.dom bodyId = [2, r] ∧
     domGet (restoreRun t (elemRestoreState
        (⟨[(0, [1]), (1, [2, r]), (2, l3), (98, []), (99, [e])]⟩ : Dom)
        e ph (some r))).2.dom 2 = l3 ∧
     domGet (restoreRun t (elemRestoreState
        (⟨[(0, [1]), (1, [2, r]), (2, l3), (98, []), (99, [e])]⟩ : Dom)
        e ph (some r))).2.dom pipBodyId = [] ∧
     (restoreRun t (elemRestoreState
        (⟨[(0, [1]), (1, [2, r]), (2, l3), (98, []), (99, [e])]⟩ : Dom)
        e ph (some r))).2.posts = []) ∧
    -- (D) parent disconnected: append to the document body
    ((restoreRun t (elemRestoreState
        (⟨[(0, [1]), (1, []), (3, [2]), (2, l3), (98, []), (99, [e])]⟩ : Dom)
        e ph none)).1 = Except.ok () ∧
     domGet (restoreRun t (elemRestoreState
        (⟨[(0, [1]), (1, []), (3, [2]), (2, l3), (98, []), (99, [e])]⟩ : Dom)
        e ph none)).2.dom bodyId = [e] ∧
     domGet (restoreRun t (elemRestoreState
        (⟨[(0, [1]), (1, []), (3, [2]), (2, l3), (98, []), (99, [e])]⟩ : Dom)
        e ph none)).2.dom 2 = l3) := by
  have hbe1 : ((1 : NodeId) != e) = true := bne_of_ne (Ne.symm he1)
  have hbe2 : ((2 : NodeId) != e) = true := bne_of_ne (Ne.symm he2)
  have hbp1 : ((1 : NodeId) != ph) = true := bne_of_ne (Ne.symm hp1)
  have hbp2 : ((2 : NodeId) != ph) = true := bne_of_ne (Ne.symm hp2)
  have hbpe : (ph != e) = true := bne_of_ne (Ne.symm hep)
  have hbep : (e != ph) = true := bne_of_ne hep
  have hbre : (r != e) = true := bne_of_ne (Ne.symm her)
  have hbrp : (r != ph) = true := bne_of_ne (Ne.symm hpr)
  refine ⟨?_, ?_, ?_, ?_, ?_⟩
  · -- (A)
    have hpar_ph : parentOfL
        [((0 : NodeId), [1]), (1, [2]), (2, l1 ++ ph :: l2), (98, []), (99, [])] ph =
        some 2 := by
      simp [parentOfL, hp1, hp2]
    have hconn2 : isConnected
        (⟨[(0, [1]), (1, [2]), (2, l1 ++ ph :: l2), (98, []), (99, [e])]⟩ : Dom)
        2 = true := by
      simp [isConnected, connectedFuel, parentOf, parentOfL, docRootId]
    have hfA : ((l1 ++ ph :: l2).filter (fun c => c != e)) = l1 ++ ph :: l2 := by
      apply filter_ne_eq_self
      intro hm
      rcases List.mem_append.mp hm with hm | hm
      · exact hel1 hm
      · rcases List.mem_cons.mp hm with hm | hm
        · exact hep hm
        · exact hel2 hm

    have hinsA : insertBeforeList (l1 ++ ph :: l2) e ph = l1 ++ e :: ph :: l2 :=
      insertBeforeList_append_not_mem l1 e ph l2 hpl1
    have hremA : ((l1 ++ e :: ph :: l2).filter (fun c => c != ph)) = l1 ++ e :: l2 := by
      rw [List.filter_append, filter_ne_eq_self hpl1]
      simp [List.filter, bne_self_eq_false, hbep, filter_ne_eq_self hpl2]
    simp [restoreRun, restoreElementBranch, elemRestoreState, cleanupObserversM,
          hpar_ph, hconn2, domInsertBefore, domAppend, domErase, domSetChildren,
          domRemove, domGet, domGetL, parentOf, docRootId, bodyId, fragId,
          pipBodyId, hfA, hinsA, hremA, List.filter, bne_self_eq_false,
          hbe1, hbe2, hbp1, hbp2, hbpe, hbep, hp1, hp2]
  · -- (B1)
    have hconn2 : isConnected
        (⟨[(0, [1]), (1, [2, ph]), (2, l3), (98, []), (99, [e])]⟩ : Dom)
        2 = true := by
      simp [isConnected, connectedFuel, parentOf, parentOfL, docRootId]
    have hfB : (l3.filter (fun c => c != e)) = l3 := filter_ne_eq_self hel3
    have hparB : parentOfL
        [((0 : NodeId), [1]), (1, [2, ph]), (2, l3), (98, []), (99, [])] ph =
        some 1 := by
      simp [parentOfL, hp1, hp2]
    have hconn_ph : isConnected
        (⟨[(0, [1]), (1, [2, ph]), (2, l3 ++ [e]), (98, []), (99, [])]⟩ : Dom)
        ph = true := by
      simp [isConnected, connectedFuel, parentOf, parentOfL, docRootId,
            hp0, hp1, hp2]
    have hfB2 : ((l3 ++ [e]).filter (fun c => c != ph)) = l3 ++ [e] := by
      rw [List.filter_append, filter_ne_eq_self hpl3]
      simp [List.filter, hbep]
    simp [restoreRun, restoreElementBranch, elemRestoreState, cleanupObserversM,
          hconn2, hparB, hconn_ph, domInsertBefore, domAppend, domErase,
          domSetChildren, domRemove, domGet, domGetL, parentOf, docRootId,
          bodyId, fragId, pipBodyId, hfB, hfB2, List.filter, bne_self_eq_false,
          hbe1, hbe2, hbp1, hbp2, hbpe, hbep, hp1, hp2, filter_ne_eq_self hpl3,
          filter_ne_eq_self hel3]
  · -- (B2)
    have hconn2 : isConnected
        (⟨[(0, [1]), (1, [2]), (2, l3 ++ [r]), (98, []), (99, [e])]⟩ : Dom)
        2 = true := by
      simp [isConnected, connectedFuel, parentOf, parentOfL, docRootId]
    have hnm : ph ∉ l3 ++ [r] := by
      intro hm
      rcases List.mem_append.mp hm with hm | hm
      · exact hpl3 hm
      · exact hpr (List.mem_singleton.mp hm)
    have hparB2 : parentOfL
        [((0 : NodeId), [1]), (1, [2]), (2, l3 ++ [r]), (98, []), (99, [])] ph =
        none := by
      simp [parentOfL, hp1, hp2, hnm]
    have hfB : (((l3 ++ [r])).filter (fun c => c != e)) = l3 ++ [r] := by
      rw [List.filter_append, filter_ne_eq_self hel3]
      simp [List.filter, hbre]
    have hinsB2 : insertBeforeList (l3 ++ [r]) e r = l3 ++ e :: [r] := by
      have := insertBeforeList_append_not_mem l3 e r [] hrl3
      simpa using this
    have hnoconn_ph : isConnected
        (⟨[(0, [1]), (1, [2]), (2, l3 ++ e :: [r]), (98, []), (99, [])]⟩ : Dom)
        ph = false := by
      simp [isConnected, connectedFuel, parentOf, parentOfL, docRootId,
            hp0, hp1, hp2, hpl3, Ne.symm hep, hpr]
    simp [restoreRun, restoreElementBranch, elemRestoreState, cleanupObserversM,
          hconn2, hparB2, hnoconn_ph, hinsB2, domInsertBefore, domAppend,
          domErase, domSetChildren, domRemove, domGet, domGetL, parentOf,
          docRootId, bodyId, fragId, pipBodyId, hfB, List.filter,
          bne_self_eq_false, hbe1, hbe2, hbre, hp1, hp2]
  · -- (C)
    have hconn2 : isConnected
        (⟨[(0, [1]), (1, [2, r]), (2, l3), (98, []), (99, [e])]⟩ : Dom)
        2 = true := by
      simp [isConnected, connectedFuel, parentOf, parentOfL, docRootId]
    have hnm2 : ph ∉ ([2, r] : List NodeId) := by
      intro hm
      rcases List.mem_cons.mp hm with hm | hm
      · exact hp2 hm
      · exact hpr (List.mem_singleton.mp hm)
    have hparC : parentOfL
        [((0 : NodeId), [1]), (1, [2, r]), (2, l3), (98, []), (99, [])] ph =
        none := by
      simp [parentOfL, hp1, hnm2, hpl3]
    simp [restoreRun, restoreElementBranch, elemRestoreState, cleanupObserversM,
          hconn2, hparC, domInsertBefore, domErase, domGet, domGetL, parentOf,
          docRootId, bodyId, fragId, pipBodyId, hrl3, List.filter,
          bne_self_eq_false, hbe1, hbe2, hbre, filter_ne_eq_self hel3]
  · -- (D)
    have hnoconn2 : isConnected
        (⟨[(0, [1]), (1, []), (3, [2]), (2, l3), (98, []), (99, [e])]⟩ : Dom)
        2 = false := by
      simp [isConnected, connectedFuel, parentOf, parentOfL, docRootId,
            h3l3, Ne.symm he3]
    have hfD : (l3.filter (fun c => c != e)) = l3 := filter_ne_eq_self hel3
    simp [restoreRun, restoreElementBranch, elemRestoreState, cleanupObserversM,
          hnoconn2, domAppend, domErase, domSetChildren, domRemove, domGet,
          domGetL, parentOf, docRootId, bodyId, fragId, pipBodyId, hfD,
          List.filter, bne_self_eq_false, hbe1, hbe2, he3]

/-- Witness for `pip_c3_element_reattach_amended` at concrete lists and
ids. -/
theorem pip_c3_element_reattach_amended_witness :
    domGet (restoreRun "w" (elemRestoreState
        (⟨[(0, [1]), (1, [2]), (2, [20] ++ 40 :: [21]), (98, []), (99, [30])]⟩ : Dom)
        30 40 none)).2.dom 2 = [20] ++ 30 :: [21] ∧
    (restoreRun "w" (elemRestoreState
        (⟨[(0, [1]), (1, [2, 41]), (2, [20]), (98, []), (99, [30])]⟩ : Dom)
        30 40 (some 41))).1 = Except.error "NotFoundError" := by
  have h := pip_c3_element_reattach_amended [20] [21] [20] 30 40 41 none "w"
    (by decide) (by decide) (by decide) (by decide) (by decide) (by decide)
    (by decide) (by decide) (by decide) (by decide) (by decide) (by decide)
    (by decide) (by decide) (by decide) (by decide) (by decide)
  exact ⟨h.1.2, h.2.2.2.1.1⟩

end PiP
